import Mathlib

/-!
Shallow embedding of the notification / friendship / social core of `src/app.py`
(a Flask + SQLAlchemy + SocketIO application).

Conventions of the translation:
* Each SQLAlchemy model becomes a Lean structure; the database session becomes an
  explicit `DB` record of row lists plus per-table autoincrement counters.
* A query `Model.query.get(id)` becomes `List.find?` on the id; `filter_by` becomes
  `List.filter`; `order_by(created_at.desc())` becomes `List.reverse` (rows are kept
  in insertion order); in-place mutation of a fetched row becomes a `List.map`
  guarded by the row's id, and `db.session.delete(row)` on the first matching row
  becomes `List.eraseP`.
* Python floats carried by water/sleep logs are modelled as rationals (`Rat`);
  integer counters are `Int` as in Python.
* Python truthiness of `user_id` in `create_notification` is modelled as `user_id ≠ 0`.
* String literals keep the ASCII text of the source; emoji prefixes are dropped and
  apostrophes are expanded (e.g. "Don't" becomes "Do not").
* `socketio.emit(...)` becomes an `Effect.push` element of an effect trace; the
  durable insert is the `Effect.persist` element that precedes it.
* Dates are out of scope for the verified claims: the per-day filter of the
  hydration endpoint is modelled by treating every stored water log as a same-day
  log of its user.
-/

namespace App

/-- `User` model: only the fields the core reads (identity plus reminder toggles). -/
structure UserRec where
  id : Nat
  username : String
  notifications_enabled : Bool
  water_reminder : Bool
  meal_reminder : Bool
  workout_reminder : Bool
  sleep_reminder : Bool
  fasting_reminder : Bool
deriving DecidableEq

/-- `Notification` model row. -/
structure NotificationRec where
  id : Nat
  user_id : Nat
  title : String
  message : String
  type : String
  is_read : Bool
deriving DecidableEq

/-- `Friendship` model row. -/
structure FriendshipRec where
  id : Nat
  user_id : Nat
  friend_id : Nat
  status : String
deriving DecidableEq

/-- `Post` model row. -/
structure PostRec where
  id : Nat
  user_id : Nat
  content : String
  likes_count : Int
  comments_count : Int
deriving DecidableEq

/-- `PostLike` model row. -/
structure PostLikeRec where
  id : Nat
  user_id : Nat
  post_id : Nat
deriving DecidableEq

/-- `Comment` model row. -/
structure CommentRec where
  id : Nat
  user_id : Nat
  post_id : Nat
  content : String
deriving DecidableEq

/-- `Message` model row. -/
structure MessageRec where
  id : Nat
  sender_id : Nat
  receiver_id : Nat
  content : String
  is_read : Bool
deriving DecidableEq

/-- `WaterLog` model row (amount is a Python float, modelled as `Rat`). -/
structure WaterLogRec where
  id : Nat
  user_id : Nat
  amount : Rat
deriving DecidableEq

/-- `SleepLog` model row. -/
structure SleepLogRec where
  id : Nat
  user_id : Nat
  duration : Rat
  quality : Int
deriving DecidableEq

/-- `FastingSession` model row (start/end times are irrelevant to the claims). -/
structure FastingRec where
  id : Nat
  user_id : Nat
  target_duration : Int
  completed : Bool
deriving DecidableEq

/-- The database session state: one list per table plus autoincrement counters. -/
structure DB where
  users : List UserRec
  notifications : List NotificationRec
  friendships : List FriendshipRec
  posts : List PostRec
  postLikes : List PostLikeRec
  comments : List CommentRec
  messages : List MessageRec
  waterLogs : List WaterLogRec
  sleepLogs : List SleepLogRec
  fastingSessions : List FastingRec
  nextNotificationId : Nat
  nextFriendshipId : Nat
  nextPostId : Nat
  nextPostLikeId : Nat
  nextCommentId : Nat
  nextMessageId : Nat
  nextWaterLogId : Nat
  nextSleepLogId : Nat
  nextFastingId : Nat
deriving DecidableEq

/-- The empty database. -/
def emptyDB : DB :=
  { users := [], notifications := [], friendships := [], posts := [], postLikes := []
    comments := [], messages := [], waterLogs := [], sleepLogs := [], fastingSessions := []
    nextNotificationId := 1, nextFriendshipId := 1, nextPostId := 1, nextPostLikeId := 1
    nextCommentId := 1, nextMessageId := 1, nextWaterLogId := 1, nextSleepLogId := 1
    nextFastingId := 1 }

/-- Payload of a `socketio.emit('new_notification', ...)` push. -/
structure PushPayload where
  title : String
  message : String
  type : String
deriving DecidableEq

/-- Observable effects of `create_notification`: the durable insert and the
best-effort socket push, in program order. -/
inductive Effect where
  | persist (n : NotificationRec)
  | push (room : String) (payload : PushPayload)
deriving DecidableEq

/-- The `Notification` row built by `create_notification` on database `d`. -/
def newNotif (d : DB) (user_id : Nat) (title message ty : String) : NotificationRec :=
  { id := d.nextNotificationId, user_id := user_id, title := title, message := message
    type := ty, is_read := false }

/-- `create_notification(user_id, title, message, type)` (src/app.py:358-373):
guarded by Python truthiness of `user_id`; persists one row, then emits the same
payload to the room `user_<id>`. Returns the new database state together with the
trace of effects in program order. -/
def create_notification (d : DB) (user_id : Nat) (title message ty : String) :
    DB × List Effect :=
  if user_id ≠ 0 then
    let n := newNotif d user_id title message ty
    ({ d with notifications := d.notifications ++ [n]
              nextNotificationId := d.nextNotificationId + 1 },
     [Effect.persist n,
      Effect.push ("user_" ++ toString user_id)
        { title := title, message := message, type := ty }])
  else (d, [])

/-- The database part of `create_notification` (the socket emit leaves the store
untouched); used wherever a caller ignores the push. -/
def notifyDb (d : DB) (user_id : Nat) (title message ty : String) : DB :=
  (create_notification d user_id title message ty).1

/-- GET `/api/notifications` (src/app.py:1443-1454): the caller's rows, optionally
unread only, newest first, limited. -/
def listNotifications (d : DB) (uid : Nat) (unread_only : Bool) (limit : Nat) :
    List NotificationRec :=
  let q := d.notifications.filter (fun n => n.user_id == uid)
  let q := if unread_only then q.filter (fun n => n.is_read == false) else q
  q.reverse.take limit

/-- The presence registry: the set of socket sessions joined to each room
(`join_room('user_<id>')` on connect, src/app.py:2233-2236). Ephemeral state,
modelled as an association list room ↦ session id. -/
def channelsFor (reg : List (String × Nat)) (room : String) : List Nat :=
  (reg.filter (fun e => e.1 == room)).map (fun e => e.2)

/-- Live delivery of one effect: a push reaches every session in its room;
a persist reaches no socket. -/
def deliverEffect (reg : List (String × Nat)) : Effect → List (Nat × PushPayload)
  | Effect.persist _ => []
  | Effect.push room payload => (channelsFor reg room).map (fun c => (c, payload))

/-- Live delivery of an effect trace. -/
def deliveries (reg : List (String × Nat)) (effs : List Effect) :
    List (Nat × PushPayload) :=
  (effs.map (deliverEffect reg)).flatten

/-! ## Reminder evaluator (src/app.py:377-410) -/

/-- The body of the per-user loop of `check_and_send_notifications`: the four
reminder blocks (water, meals, workout, sleep), each calling
`create_notification` when its wall-clock-hour condition and toggle hold. -/
def checkUserReminders (d : DB) (u : UserRec) (current_hour : Nat) : DB :=
  let d1 :=
    if u.water_reminder && decide (8 ≤ current_hour) && decide (current_hour ≤ 20)
        && (current_hour % 2 == 0) then
      notifyDb d u.id "Time to Drink Water!"
        "Stay hydrated! Drink a glass of water." "water"
    else d
  let d2 :=
    if u.meal_reminder then
      if current_hour == 8 then
        notifyDb d1 u.id "Breakfast Time!"
          "Do not forget to have your breakfast!" "meal"
      else if current_hour == 13 then
        notifyDb d1 u.id "Lunch Time!" "Time for a healthy lunch!" "meal"
      else if current_hour == 19 then
        notifyDb d1 u.id "Dinner Time!" "Do not skip dinner!" "meal"
      else d1
    else d1
  let d3 :=
    if u.workout_reminder && (current_hour == 17) then
      notifyDb d2 u.id "Workout Time!" "Time for your daily workout!" "workout"
    else d2
  let d4 :=
    if u.sleep_reminder && (current_hour == 22) then
      notifyDb d3 u.id "Bedtime!" "Time to wind down and prepare for sleep." "sleep"
    else d3
  d4

/-- `check_and_send_notifications()` (src/app.py:377-410): filter the users with
the master flag set and run the reminder blocks for each, at the current
wall-clock hour. -/
def check_and_send_notifications (d : DB) (current_hour : Nat) : DB :=
  (d.users.filter (fun u => u.notifications_enabled)).foldl
    (fun acc u => checkUserReminders acc u current_hour) d

/-! ### Failure-aware variant for the error-isolation claim.

`db.session.commit()` inside `create_notification` can raise a store error.
`failing uid` says whether the store raises while persisting a notification for
`uid`. The evaluator loop (src/app.py:384-410) contains no try/except, so the
exception propagates: this is modelled with `Except`. -/

/-- `create_notification` when the store may fail: the commit for a failing user
raises before anything is durably persisted. -/
def create_notificationE (failing : Nat → Bool) (d : DB) (user_id : Nat)
    (title message ty : String) : Except Unit DB :=
  if user_id ≠ 0 then
    if failing user_id then Except.error ()
    else Except.ok (notifyDb d user_id title message ty)
  else Except.ok d

/-- Loop body of the evaluator under possible store failure; any raise
propagates to the caller (there is no handler in the source). -/
def checkUserRemindersE (failing : Nat → Bool) (d : DB) (u : UserRec)
    (current_hour : Nat) : Except Unit DB := do
  let d1 ←
    if u.water_reminder && decide (8 ≤ current_hour) && decide (current_hour ≤ 20)
        && (current_hour % 2 == 0) then
      create_notificationE failing d u.id "Time to Drink Water!"
        "Stay hydrated! Drink a glass of water." "water"
    else pure d
  let d2 ←
    if u.meal_reminder then
      if current_hour == 8 then
        create_notificationE failing d1 u.id "Breakfast Time!"
          "Do not forget to have your breakfast!" "meal"
      else if current_hour == 13 then
        create_notificationE failing d1 u.id "Lunch Time!"
          "Time for a healthy lunch!" "meal"
      else if current_hour == 19 then
        create_notificationE failing d1 u.id "Dinner Time!"
          "Do not skip dinner!" "meal"
      else pure d1
    else pure d1
  let d3 ←
    if u.workout_reminder && (current_hour == 17) then
      create_notificationE failing d2 u.id "Workout Time!"
        "Time for your daily workout!" "workout"
    else pure d2
  if u.sleep_reminder && (current_hour == 22) then
    create_notificationE failing d3 u.id "Bedtime!"
      "Time to wind down and prepare for sleep." "sleep"
  else pure d3

/-- The evaluator's user loop under possible store failure: a raise aborts the
remaining iterations (no try/except around the loop body in the source). -/
def checkLoopE (failing : Nat → Bool) (current_hour : Nat) :
    List UserRec → DB → Except Unit DB
  | [], d => Except.ok d
  | u :: rest, d => do
      let d' ← checkUserRemindersE failing d u current_hour
      checkLoopE failing current_hour rest d'

/-- `check_and_send_notifications` under possible store failure. -/
def check_and_send_notificationsE (failing : Nat → Bool) (d : DB)
    (current_hour : Nat) : Except Unit DB :=
  checkLoopE failing current_hour (d.users.filter (fun u => u.notifications_enabled)) d

/-! ## Friendship state machine (src/app.py:1502-1621)

The HTTP layer returns `(status, message)` pairs on failure; `404` rows map to
the spec's `NotFoundError`, `400 "Friendship already exists"` to `ConflictError`,
`400 "Cannot add yourself"` to `SelfReferenceError`. -/

/-- An error response: HTTP status code and message, as produced by the route. -/
abbrev ApiErr := Nat × String

/-- `User.query.filter_by(username=...).first()`. -/
def lookupUserByUsername (d : DB) (uname : String) : Option UserRec :=
  d.users.find? (fun v => v.username == uname)

/-- POST `/api/social/friends` with `action='send'` (src/app.py:1548-1577):
resolve the target by username, reject self-reference, reject when a friendship
row exists in either orientation, otherwise create a `pending` row and notify
the recipient. `me` is `current_user`. -/
def friends_send (d : DB) (me : UserRec) (friend_username : String) :
    Except ApiErr DB :=
  match lookupUserByUsername d friend_username with
  | none => Except.error (404, "User not found")
  | some friend_user =>
    if friend_user.id == me.id then Except.error (400, "Cannot add yourself")
    else
      match d.friendships.find? (fun f =>
          (f.user_id == me.id && f.friend_id == friend_user.id)
          || (f.user_id == friend_user.id && f.friend_id == me.id)) with
      | some _ => Except.error (400, "Friendship already exists")
      | none =>
        let fr : FriendshipRec :=
          { id := d.nextFriendshipId, user_id := me.id, friend_id := friend_user.id
            status := "pending" }
        let d1 := { d with friendships := d.friendships ++ [fr]
                           nextFriendshipId := d.nextFriendshipId + 1 }
        Except.ok (notifyDb d1 friend_user.id "New Friend Request"
          (me.username ++ " sent you a friend request!") "social")

/-- POST `/api/social/friends` with `action='accept'` or `'reject'`
(src/app.py:1579-1597): fetch by id, 404 unless the caller is the recipient;
accept sets the status to `accepted` and notifies the requester; reject deletes
the row. Note the source never checks that the row is still `pending`. -/
def friends_respond (d : DB) (me : UserRec) (friendship_id : Nat)
    (accept : Bool) : Except ApiErr DB :=
  match d.friendships.find? (fun f => f.id == friendship_id) with
  | none => Except.error (404, "Friend request not found")
  | some friendship =>
    if friendship.friend_id != me.id then
      Except.error (404, "Friend request not found")
    else if accept then
      let d1 := { d with friendships := d.friendships.map (fun g =>
        if g.id == friendship_id then { g with status := "accepted" } else g) }
      Except.ok (notifyDb d1 friendship.user_id "Friend Request Accepted"
        (me.username ++ " accepted your friend request!") "social")
    else
      Except.ok { d with friendships :=
        d.friendships.eraseP (fun g => g.id == friendship_id) }

/-- DELETE `/api/social/friends` (src/app.py:1604-1621): 404 unless the caller
is either party; deletes the row unconditionally of status. -/
def friends_remove (d : DB) (me : UserRec) (friendship_id : Nat) :
    Except ApiErr DB :=
  match d.friendships.find? (fun f => f.id == friendship_id) with
  | none => Except.error (404, "Friendship not found")
  | some friendship =>
    if friendship.user_id != me.id && friendship.friend_id != me.id then
      Except.error (404, "Friendship not found")
    else
      Except.ok { d with friendships :=
        d.friendships.eraseP (fun g => g.id == friendship_id) }

/-! ## Social interaction engine (src/app.py:1623-1821, 2243-2267) -/

/-- `Post.query.get(post_id)`. -/
def getPost (d : DB) (post_id : Nat) : Option PostRec :=
  d.posts.find? (fun p => p.id == post_id)

/-- Write back a fetched post's `likes_count` (SQLAlchemy mutation of the row
with that id). -/
def setPostLikes (d : DB) (post_id : Nat) (c : Int) : DB :=
  { d with posts := d.posts.map (fun q =>
      if q.id == post_id then { q with likes_count := c } else q) }

/-- Write back a fetched post's `comments_count`. -/
def setPostComments (d : DB) (post_id : Nat) (c : Int) : DB :=
  { d with posts := d.posts.map (fun q =>
      if q.id == post_id then { q with comments_count := c } else q) }

/-- The `liked` state the API reports: whether a `PostLike` row by this user on
this post exists (src/app.py:1658-1661). -/
def likedState (d : DB) (uid post_id : Nat) : Bool :=
  (d.postLikes.find? (fun l => l.post_id == post_id && l.user_id == uid)).isSome

/-- POST `/api/social/posts` (src/app.py:1687-1711): create a post with zero
counters. -/
def posts_create (d : DB) (me : UserRec) (content : String) : DB :=
  { d with
    posts := d.posts ++
      [{ id := d.nextPostId, user_id := me.id, content := content
         likes_count := 0, comments_count := 0 }],
    nextPostId := d.nextPostId + 1 }

/-- POST `/api/social/posts/<post_id>/like` (src/app.py:1713-1750): toggle.
An existing like is deleted and the counter decremented (no notification);
otherwise a like row is added, the counter incremented, and the post owner is
notified unless the liker is the owner. Returns the new state, the reported
`liked` flag and the reported `likes_count`. -/
def like_post (d : DB) (me : UserRec) (post_id : Nat) :
    Except ApiErr (DB × Bool × Int) :=
  match getPost d post_id with
  | none => Except.error (404, "Post not found")
  | some post =>
    if likedState d me.id post_id then
      let d1 := { d with postLikes :=
        d.postLikes.eraseP (fun l => l.post_id == post_id && l.user_id == me.id) }
      let d2 := setPostLikes d1 post_id (post.likes_count - 1)
      Except.ok (d2, false, post.likes_count - 1)
    else
      let d1 := { d with
        postLikes := d.postLikes ++
          [{ id := d.nextPostLikeId, user_id := me.id, post_id := post_id }],
        nextPostLikeId := d.nextPostLikeId + 1 }
      let d2 := setPostLikes d1 post_id (post.likes_count + 1)
      let d3 :=
        if post.user_id != me.id then
          notifyDb d2 post.user_id "New Like"
            (me.username ++ " liked your post!") "social"
        else d2
      Except.ok (d3, true, post.likes_count + 1)

/-- POST `/api/social/posts/<post_id>/comments` (src/app.py:1782-1821): add a
comment row, increment the counter, and notify the post owner unless the
commenter is the owner. -/
def comments_create (d : DB) (me : UserRec) (post_id : Nat) (content : String) :
    Except ApiErr DB :=
  match getPost d post_id with
  | none => Except.error (404, "Post not found")
  | some post =>
    let d1 := { d with
      comments := d.comments ++
        [{ id := d.nextCommentId, user_id := me.id, post_id := post_id
           content := content }],
      nextCommentId := d.nextCommentId + 1 }
    let d2 := setPostComments d1 post_id (post.comments_count + 1)
    if post.user_id != me.id then
      Except.ok (notifyDb d2 post.user_id "New Comment"
        (me.username ++ " commented on your post!") "social")
    else Except.ok d2

/-- SocketIO `send_message` handler (src/app.py:2243-2267): persist the message,
emit it to the receiver's room, then notify the receiver. There is no guard
against `sender == receiver`. -/
def handle_send_message (d : DB) (me : UserRec) (receiver_id : Nat)
    (content : String) : DB :=
  let d1 := { d with
    messages := d.messages ++
      [{ id := d.nextMessageId, sender_id := me.id, receiver_id := receiver_id
         content := content, is_read := false }],
    nextMessageId := d.nextMessageId + 1 }
  notifyDb d1 receiver_id "New Message"
    (me.username ++ " sent you a message") "social"

/-! ## Health endpoints that notify (src/app.py:1119-1335) -/

/-- POST `/api/hydration` (src/app.py:1147-1172): log the amount, then notify a
water-goal achievement when today's total reaches 2500 (all stored logs are
modelled as today's). -/
def hydration_post (d : DB) (me : UserRec) (amount : Rat) : DB :=
  let d1 := { d with
    waterLogs := d.waterLogs ++
      [{ id := d.nextWaterLogId, user_id := me.id, amount := amount }],
    nextWaterLogId := d.nextWaterLogId + 1 }
  let today_total : Rat :=
    ((d1.waterLogs.filter (fun l => l.user_id == me.id)).map
      (fun l => l.amount)).sum
  if 2500 ≤ today_total then
    notifyDb d1 me.id "Water Goal Achieved!"
      "You have reached your daily water goal!" "water"
  else d1

/-- POST `/api/sleep` (src/app.py:1210-1236): log the night, then alert on short
duration, else on low quality. -/
def sleep_post (d : DB) (me : UserRec) (duration : Rat) (quality : Int) : DB :=
  let d1 := { d with
    sleepLogs := d.sleepLogs ++
      [{ id := d.nextSleepLogId, user_id := me.id, duration := duration
         quality := quality }],
    nextSleepLogId := d.nextSleepLogId + 1 }
  if duration < 6 then
    notifyDb d1 me.id "Sleep Alert"
      "You got less than 6 hours of sleep. Try to get more rest!" "sleep"
  else if quality < 5 then
    notifyDb d1 me.id "Improve Sleep Quality"
      "Your sleep quality was low. Consider relaxation techniques." "sleep"
  else d1

/-- POST `/api/fasting` (src/app.py:1270-1308): refuse when an active session
exists, otherwise start one and notify. -/
def fasting_post (d : DB) (me : UserRec) (target_duration : Int) :
    Except ApiErr DB :=
  match d.fastingSessions.find? (fun s => s.user_id == me.id && !s.completed) with
  | some _ => Except.error (400, "You already have an active fasting session")
  | none =>
    let d1 := { d with
      fastingSessions := d.fastingSessions ++
        [{ id := d.nextFastingId, user_id := me.id
           target_duration := target_duration, completed := false }],
      nextFastingId := d.nextFastingId + 1 }
    Except.ok (notifyDb d1 me.id "Fasting Started"
      (toString target_duration ++ "-hour fast has started!") "fasting")

/-- PUT `/api/fasting` (src/app.py:1310-1335): complete an owned session and
notify (the elapsed-hours text is abstracted as the target figure, times being
out of scope). -/
def fasting_put (d : DB) (me : UserRec) (session_id : Nat) : Except ApiErr DB :=
  match d.fastingSessions.find? (fun s => s.id == session_id) with
  | none => Except.error (404, "Session not found")
  | some s =>
    if s.user_id != me.id then Except.error (404, "Session not found")
    else
      let d1 := { d with fastingSessions := d.fastingSessions.map (fun t =>
        if t.id == session_id then { t with completed := true } else t) }
      Except.ok (notifyDb d1 me.id "Fasting Completed"
        ("You completed a " ++ toString s.target_duration ++ "-hour fast!")
        "fasting")

/-- The `Post` row built by `posts_create` on database `d`. -/
def newPost (d : DB) (me : UserRec) (content : String) : PostRec :=
  { id := d.nextPostId, user_id := me.id, content := content
    likes_count := 0, comments_count := 0 }

/-- The `PostLike` row built by the like branch of `like_post`. -/
def newLike (d : DB) (me : UserRec) (post_id : Nat) : PostLikeRec :=
  { id := d.nextPostLikeId, user_id := me.id, post_id := post_id }

/-- The `Comment` row built by `comments_create`. -/
def newComment (d : DB) (me : UserRec) (post_id : Nat) (content : String) :
    CommentRec :=
  { id := d.nextCommentId, user_id := me.id, post_id := post_id
    content := content }

/-! ### Intermediate states of the notifying endpoints

Each notifying endpoint first commits its own row(s) and then calls
`create_notification` on the resulting state. These aliases name those
intermediate states so that the final state of an endpoint can be related to
the full `create_notification` call — database half AND effect trace — that it
performs. -/

/-- State of the hydration endpoint after the water log commit. -/
def waterLogged (d : DB) (me : UserRec) (amount : Rat) : DB :=
  { d with
    waterLogs := d.waterLogs ++
      [{ id := d.nextWaterLogId, user_id := me.id, amount := amount }],
    nextWaterLogId := d.nextWaterLogId + 1 }

/-- State of the sleep endpoint after the sleep log commit. -/
def sleepLogged (d : DB) (me : UserRec) (duration : Rat) (quality : Int) : DB :=
  { d with
    sleepLogs := d.sleepLogs ++
      [{ id := d.nextSleepLogId, user_id := me.id, duration := duration
         quality := quality }],
    nextSleepLogId := d.nextSleepLogId + 1 }

/-- State of the fasting POST endpoint after the session commit. -/
def fastingStarted (d : DB) (me : UserRec) (target_duration : Int) : DB :=
  { d with
    fastingSessions := d.fastingSessions ++
      [{ id := d.nextFastingId, user_id := me.id
         target_duration := target_duration, completed := false }],
    nextFastingId := d.nextFastingId + 1 }

/-- State of the fasting PUT endpoint after completing the session. -/
def fastingCompleted (d : DB) (session_id : Nat) : DB :=
  { d with fastingSessions := d.fastingSessions.map (fun t =>
      if t.id == session_id then { t with completed := true } else t) }

/-- State of the friend-request action after the pending row commit. -/
def requestAdded (d : DB) (me : UserRec) (friend_user : UserRec) : DB :=
  { d with
    friendships := d.friendships ++
      [{ id := d.nextFriendshipId, user_id := me.id
         friend_id := friend_user.id, status := "pending" }],
    nextFriendshipId := d.nextFriendshipId + 1 }

/-- State of the friend-accept action after the status update. -/
def acceptApplied (d : DB) (friendship_id : Nat) : DB :=
  { d with friendships := d.friendships.map (fun g =>
      if g.id == friendship_id then { g with status := "accepted" } else g) }

/-- State of the like branch after the like row and counter commit. -/
def likeApplied (d : DB) (me : UserRec) (post_id : Nat) (post : PostRec) : DB :=
  setPostLikes { d with
    postLikes := d.postLikes ++ [newLike d me post_id],
    nextPostLikeId := d.nextPostLikeId + 1 } post_id (post.likes_count + 1)

/-- State of the comment endpoint after the comment row and counter commit. -/
def commentApplied (d : DB) (me : UserRec) (post_id : Nat) (post : PostRec)
    (content : String) : DB :=
  setPostComments { d with
    comments := d.comments ++ [newComment d me post_id content],
    nextCommentId := d.nextCommentId + 1 } post_id (post.comments_count + 1)

/-- State of the message handler after the message commit. -/
def messageLogged (d : DB) (me : UserRec) (receiver_id : Nat)
    (content : String) : DB :=
  { d with
    messages := d.messages ++
      [{ id := d.nextMessageId, sender_id := me.id, receiver_id := receiver_id
         content := content, is_read := false }],
    nextMessageId := d.nextMessageId + 1 }

/-- `result` is the database half of `create_notification dX uid t m ty`, and
that call's effect trace is exactly the durable persist of the new row
followed by the live push of the same payload to the user's room: the
notification was both created and pushed. -/
def storeAndPush (result dX : DB) (uid : Nat) (t m ty : String) : Prop :=
  result = (create_notification dX uid t m ty).1 ∧
  (create_notification dX uid t m ty).2 =
    [Effect.persist (newNotif dX uid t m ty),
     Effect.push ("user_" ++ toString uid)
       { title := t, message := m, type := ty }]

/-- `storeAndPush` for an optional result (a successful fallible endpoint). -/
def storeAndPushO (res : Option DB) (dX : DB) (uid : Nat)
    (t m ty : String) : Prop :=
  res = some (create_notification dX uid t m ty).1 ∧
  (create_notification dX uid t m ty).2 =
    [Effect.persist (newNotif dX uid t m ty),
     Effect.push ("user_" ++ toString uid)
       { title := t, message := m, type := ty }]

/-! ## Derived observations -/

/-- All stored notifications of a user, in insertion order. -/
def notifsFor (d : DB) (uid : Nat) : List NotificationRec :=
  d.notifications.filter (fun n => n.user_id == uid)

/-- Number of stored notifications of a user. -/
def notifCount (d : DB) (uid : Nat) : Nat := (notifsFor d uid).length

/-- Number of stored notifications of a user with a given category tag. -/
def countTy (d : DB) (uid : Nat) (ty : String) : Nat :=
  (d.notifications.filter (fun n => n.user_id == uid && n.type == ty)).length

/-- Number of `PostLike` rows referencing a post. -/
def likesOf (d : DB) (pid : Nat) : Nat :=
  d.postLikes.countP (fun l => l.post_id == pid)

/-- Number of `Comment` rows referencing a post. -/
def commentsOf (d : DB) (pid : Nat) : Nat :=
  d.comments.countP (fun c => c.post_id == pid)

/-- Water logged by a user (all logs are modelled as today's). -/
def waterTotal (d : DB) (uid : Nat) : Rat :=
  ((d.waterLogs.filter (fun l => l.user_id == uid)).map (fun l => l.amount)).sum

/-- The §8 counter invariant: each post's counters equal the number of live
like/comment rows referencing it. -/
def countersConsistent (d : DB) : Bool :=
  d.posts.all (fun p =>
    p.likes_count == (likesOf d p.id : Int)
    && p.comments_count == (commentsOf d p.id : Int))

/-- Auxiliary invariant: every post id and every like/comment reference stays
below the post autoincrement counter (SQLAlchemy never reuses ids; posts are
never deleted). -/
def postIdBounds (d : DB) : Prop :=
  (∀ p ∈ d.posts, p.id < d.nextPostId) ∧
  (∀ l ∈ d.postLikes, l.post_id < d.nextPostId) ∧
  (∀ c ∈ d.comments, c.post_id < d.nextPostId)

/-- The states reachable from the empty database through the modelled
operations (each state-changing endpoint; failed requests leave the state
unchanged, so only successful results step). -/
inductive Reach : DB → Prop where
  | init : Reach emptyDB
  | createPost {d : DB} (me : UserRec) (content : String) (h : Reach d) :
      Reach (posts_create d me content)
  | like {d : DB} {me : UserRec} {pid : Nat} {r : DB × Bool × Int}
      (h : Reach d) (hok : like_post d me pid = Except.ok r) : Reach r.1
  | comment {d : DB} {me : UserRec} {pid : Nat} {content : String} {d' : DB}
      (h : Reach d) (hok : comments_create d me pid content = Except.ok d') :
      Reach d'
  | message {d : DB} (me : UserRec) (rid : Nat) (content : String)
      (h : Reach d) : Reach (handle_send_message d me rid content)
  | friendSend {d : DB} {me : UserRec} {uname : String} {d' : DB}
      (h : Reach d) (hok : friends_send d me uname = Except.ok d') : Reach d'
  | friendRespond {d : DB} {me : UserRec} {fid : Nat} {acc : Bool} {d' : DB}
      (h : Reach d) (hok : friends_respond d me fid acc = Except.ok d') :
      Reach d'
  | friendRemove {d : DB} {me : UserRec} {fid : Nat} {d' : DB}
      (h : Reach d) (hok : friends_remove d me fid = Except.ok d') : Reach d'
  | evaluator {d : DB} (hr : Nat) (h : Reach d) :
      Reach (check_and_send_notifications d hr)
  | hydration {d : DB} (me : UserRec) (amt : Rat) (h : Reach d) :
      Reach (hydration_post d me amt)
  | sleep {d : DB} (me : UserRec) (dur : Rat) (q : Int) (h : Reach d) :
      Reach (sleep_post d me dur q)
  | fastingStart {d : DB} {me : UserRec} {tgt : Int} {d' : DB}
      (h : Reach d) (hok : fasting_post d me tgt = Except.ok d') : Reach d'
  | fastingEnd {d : DB} {me : UserRec} {sid : Nat} {d' : DB}
      (h : Reach d) (hok : fasting_put d me sid = Except.ok d') : Reach d'
  | notify {d : DB} (uid : Nat) (t m ty : String) (h : Reach d) :
      Reach (notifyDb d uid t m ty)

/-! ## Concrete fixtures for witnesses and counterexamples -/

/-- A user with the master flag on and every toggle on. -/
def alice : UserRec :=
  { id := 1, username := "alice", notifications_enabled := true
    water_reminder := true, meal_reminder := true, workout_reminder := true
    sleep_reminder := true, fasting_reminder := true }

/-- A user with the master flag OFF and every toggle on. -/
def bob : UserRec :=
  { id := 2, username := "bob", notifications_enabled := false
    water_reminder := true, meal_reminder := true, workout_reminder := true
    sleep_reminder := true, fasting_reminder := true }

/-- A second enabled user. -/
def carol : UserRec :=
  { id := 3, username := "carol", notifications_enabled := true
    water_reminder := false, meal_reminder := true, workout_reminder := false
    sleep_reminder := false, fasting_reminder := true }

/-- Two users, nothing else. -/
def dbTwoUsers : DB := { emptyDB with users := [alice, bob] }

/-- Two enabled users, for the store-failure scenario. -/
def dbEnabledPair : DB := { emptyDB with users := [alice, carol] }

/-- Alice and Bob plus a post by Bob that Alice has already liked. -/
def dbLiked : DB :=
  { emptyDB with
    users := [alice, bob]
    posts := [{ id := 1, user_id := 2, content := "hello"
                likes_count := 1, comments_count := 0 }]
    postLikes := [{ id := 1, user_id := 1, post_id := 1 }]
    nextPostId := 2, nextPostLikeId := 2 }

/-- First like call of the C5 witness scenario (Alice re-toggles her like on
Bob's post). -/
def likeOnce : DB × Bool × Int :=
  (like_post dbLiked alice 1).toOption.getD (dbLiked, false, 0)

/-- Second like call of the C5 witness scenario. -/
def likeTwice : DB × Bool × Int :=
  (like_post likeOnce.1 alice 1).toOption.getD (dbLiked, false, 0)

/-- A comment by Alice on Bob's post, for the C8 witness scenario. -/
def commentResult : DB :=
  (comments_create dbLiked alice 1 "nice").toOption.getD dbLiked

/-- A freshly created post by Alice, for the C9 witness scenario. -/
def dbPosted : DB := posts_create emptyDB alice "hi"

/-- Bob likes Alice's fresh post, for the C9 witness scenario. -/
def likedR : DB × Bool × Int :=
  (like_post dbPosted bob 1).toOption.getD (dbPosted, false, 0)

/-- Alice and Bob plus an already-`accepted` friendship requested by Alice. -/
def dbAccepted : DB :=
  { emptyDB with
    users := [alice, bob]
    friendships := [{ id := 1, user_id := 1, friend_id := 2, status := "accepted" }]
    nextFriendshipId := 2 }

/-- Alice, Bob (master flag off), Carol, a post by Bob, a pending friend
request from Bob to Carol, and a fasting-free, like-free state sitting just
below the water goal: the flag-off gating scenario. -/
def dbGate : DB :=
  { emptyDB with
    users := [alice, bob, carol]
    posts := [{ id := 1, user_id := 2, content := "hello"
                likes_count := 0, comments_count := 0 }]
    friendships := [{ id := 1, user_id := 2, friend_id := 3
                      status := "pending" }]
    waterLogs := [{ id := 1, user_id := 2, amount := 2000 }]
    fastingSessions := [{ id := 1, user_id := 2, target_duration := 16
                          completed := true }]
    nextPostId := 2, nextFriendshipId := 2, nextWaterLogId := 2
    nextFastingId := 2 }

/-! ## Basic lemmas about `notifyDb` -/

theorem notifyDb_notifications (d : DB) (v : Nat) (t m ty : String) :
    (notifyDb d v t m ty).notifications =
      if v ≠ 0 then d.notifications ++ [newNotif d v t m ty] else d.notifications := by
  unfold notifyDb create_notification
  split <;> rfl

theorem notifyDb_users (d : DB) (v : Nat) (t m ty : String) :
    (notifyDb d v t m ty).users = d.users := by
  unfold notifyDb create_notification; split <;> rfl

theorem notifyDb_friendships (d : DB) (v : Nat) (t m ty : String) :
    (notifyDb d v t m ty).friendships = d.friendships := by
  unfold notifyDb create_notification; split <;> rfl

theorem notifyDb_posts (d : DB) (v : Nat) (t m ty : String) :
    (notifyDb d v t m ty).posts = d.posts := by
  unfold notifyDb create_notification; split <;> rfl

theorem notifyDb_postLikes (d : DB) (v : Nat) (t m ty : String) :
    (notifyDb d v t m ty).postLikes = d.postLikes := by
  unfold notifyDb create_notification; split <;> rfl

theorem notifyDb_comments (d : DB) (v : Nat) (t m ty : String) :
    (notifyDb d v t m ty).comments = d.comments := by
  unfold notifyDb create_notification; split <;> rfl

theorem notifsFor_notifyDb (d : DB) (v : Nat) (t m ty : String) (uid : Nat) :
    notifsFor (notifyDb d v t m ty) uid =
      if v = uid ∧ v ≠ 0 then notifsFor d uid ++ [newNotif d v t m ty]
      else notifsFor d uid := by
  unfold notifsFor
  rw [notifyDb_notifications]
  by_cases hv : v = 0
  · subst hv; simp
  · simp only [hv, ne_eq, not_false_iff, if_true, List.filter_append]
    by_cases he : v = uid
    · subst he
      simp [newNotif, hv]
    · simp [newNotif, he, hv, Ne.symm he]

theorem notifCount_notifyDb (d : DB) (v : Nat) (t m ty : String) (uid : Nat) :
    notifCount (notifyDb d v t m ty) uid =
      notifCount d uid + if v = uid ∧ v ≠ 0 then 1 else 0 := by
  unfold notifCount
  rw [notifsFor_notifyDb]
  split <;> simp

theorem countTy_notifyDb (d : DB) (v : Nat) (t m ty : String) (uid : Nat)
    (ty0 : String) :
    countTy (notifyDb d v t m ty) uid ty0 =
      countTy d uid ty0 + if v = uid ∧ v ≠ 0 ∧ ty = ty0 then 1 else 0 := by
  unfold countTy
  rw [notifyDb_notifications]
  by_cases hv : v = 0
  · subst hv; simp
  · simp only [hv, ne_eq, not_false_iff, if_true, List.filter_append,
      List.length_append]
    by_cases he : v = uid
    · by_cases hty : ty = ty0
      · subst he; subst hty; simp [newNotif, hv]
      · subst he; simp [newNotif, hv, hty]
    · simp [newNotif, he, hv]

/-! ## Lemmas about the reminder evaluator -/

theorem checkUserReminders_users (d : DB) (u : UserRec) (hr : Nat) :
    (checkUserReminders d u hr).users = d.users := by
  unfold checkUserReminders
  split_ifs <;> simp_all [notifyDb_users]

theorem check_and_send_users (d : DB) (hr : Nat) :
    (check_and_send_notifications d hr).users = d.users := by
  unfold check_and_send_notifications
  generalize d.users.filter (fun u => u.notifications_enabled) = l
  induction l generalizing d with
  | nil => rfl
  | cons u rest ih => simpa [checkUserReminders_users] using ih (checkUserReminders d u hr)

theorem notifsFor_checkUserReminders (d : DB) (u : UserRec) (hr : Nat)
    (uid : Nat) (h : u.id ≠ uid) :
    notifsFor (checkUserReminders d u hr) uid = notifsFor d uid := by
  unfold checkUserReminders
  split_ifs <;> simp_all [notifsFor_notifyDb, h]

theorem notifsFor_evaluator_loop (l : List UserRec) (d : DB) (hr uid : Nat)
    (h : ∀ v ∈ l, v.id ≠ uid) :
    notifsFor (l.foldl (fun acc u => checkUserReminders acc u hr) d) uid =
      notifsFor d uid := by
  induction l generalizing d with
  | nil => rfl
  | cons v rest ih =>
      simp only [List.foldl_cons]
      rw [ih (checkUserReminders d v hr) (fun w hw => h w (List.mem_cons_of_mem _ hw)),
        notifsFor_checkUserReminders d v hr uid (h v (List.mem_cons_self _ _))]

theorem countTy_meal_checkUserReminders8 (d : DB) (v : UserRec) (uid : Nat) :
    countTy (checkUserReminders d v 8) uid "meal" =
      countTy d uid "meal" +
        if v.id = uid ∧ v.id ≠ 0 ∧ v.meal_reminder = true then 1 else 0 := by
  unfold checkUserReminders
  split_ifs with h1 h2 <;>
    simp_all [countTy_notifyDb] <;> omega

theorem countTy_meal_loop8 (l : List UserRec) (d : DB) (uid : Nat) :
    countTy (l.foldl (fun acc u => checkUserReminders acc u 8) d) uid "meal" =
      countTy d uid "meal" +
        l.countP (fun v => v.id == uid && decide (v.id ≠ 0) && v.meal_reminder) := by
  induction l generalizing d with
  | nil => simp
  | cons v rest ih =>
      simp only [List.foldl_cons, List.countP_cons]
      rw [ih (checkUserReminders d v 8), countTy_meal_checkUserReminders8]
      by_cases h : v.id = uid ∧ v.id ≠ 0 ∧ v.meal_reminder = true
      · obtain ⟨h1, h2, h3⟩ := h
        simp [h1, h2, h3]
        omega
      · have : (v.id == uid && decide (v.id ≠ 0) && v.meal_reminder) = false := by
          simp only [Bool.and_eq_false_iff]
          by_cases h1 : v.id = uid
          · by_cases h2 : v.id ≠ 0
            · right
              by_cases h3 : v.meal_reminder = true
              · exact absurd ⟨h1, h2, h3⟩ h
              · simpa using h3
            · left; right; simpa using h2
          · left; left; simp [h1]
        simp only [this, Bool.false_eq_true, if_false, Nat.add_zero]
        rw [if_neg h]
        omega

/-! ## List helper lemmas -/

theorem filter_id_single (l : List UserRec) (u : UserRec)
    (hn : (l.map (fun v => v.id)).Nodup) (hu : u ∈ l) :
    l.filter (fun v => v.id == u.id) = [u] := by
  induction l with
  | nil => cases hu
  | cons a t ih =>
      simp only [List.map_cons, List.nodup_cons] at hn
      rcases List.mem_cons.mp hu with rfl | hut
      · have ht : t.filter (fun v => v.id == u.id) = [] := by
          refine List.filter_eq_nil_iff.mpr (fun x hx => ?_)
          simp only [beq_iff_eq]
          intro hxe
          exact hn.1 (hxe ▸ List.mem_map_of_mem (fun v => v.id) hx)
        simp [List.filter_cons, ht]
      · have hne : (a.id == u.id) = false := by
          simp only [beq_eq_false_iff_ne, ne_eq]
          intro hae
          exact hn.1 (hae ▸ List.mem_map_of_mem (fun v => v.id) hut)
        simp [List.filter_cons, hne, ih hn.2 hut]

theorem filter_subpred_single (l : List UserRec) (u : UserRec) (p : UserRec → Bool)
    (himp : ∀ v, p v = true → (v.id == u.id) = true)
    (hfil : l.filter (fun v => v.id == u.id) = [u]) (hpu : p u = true) :
    l.filter p = [u] := by
  induction l with
  | nil => simp at hfil
  | cons a t ih =>
      by_cases ha : (a.id == u.id) = true
      · simp only [List.filter_cons, ha, if_true] at hfil
        rw [List.cons_eq_cons] at hfil
        obtain ⟨rfl, ht⟩ := hfil
        have htp : t.filter p = [] := by
          refine List.filter_eq_nil_iff.mpr (fun x hx hpx => ?_)
          have hxid := himp x hpx
          have : x ∈ t.filter (fun v => v.id == a.id) := List.mem_filter.mpr ⟨hx, hxid⟩
          simp [ht] at this
        simp [List.filter_cons, hpu, htp]
      · have hpa : p a = false := by
          by_contra hpa
          exact ha (himp a (Bool.of_not_eq_false hpa))
        rw [List.filter_cons_of_neg (by simp [ha])] at hfil
        simp [List.filter_cons, hpa, ih hfil]

/-! ## C1: master flag off suppresses the reminder evaluator -/

/-- C1: for every user whose master `notifications_enabled` flag is off, a run
of `check_and_send_notifications` creates no notification for that user, for
every hour 0-23 and every combination of the per-category toggles (the toggles
of `u` are arbitrary). The id-level hypothesis says the flag is off on every
user record carrying this id, which is what "the user's flag is off" means
under primary-key uniqueness. -/
theorem masterFlagOff_evaluator_silent (d : DB) (hour : Nat) (u : UserRec)
    (hhour : hour < 24) (hu : u ∈ d.users)
    (hoff : ∀ v ∈ d.users, v.id = u.id → v.notifications_enabled = false) :
    notifsFor (check_and_send_notifications d hour) u.id = notifsFor d u.id := by
  unfold check_and_send_notifications
  refine notifsFor_evaluator_loop _ d hour u.id (fun v hv => ?_)
  have hv' := List.mem_filter.mp hv
  intro hid
  have := hoff v hv'.1 hid
  rw [this] at hv'
  simp at hv'

/-- Witness for C1: Bob's flag is off in `dbTwoUsers`; an 8 o'clock run leaves
his notification list unchanged. -/
theorem masterFlagOff_evaluator_silent_witness :
    notifsFor (check_and_send_notifications dbTwoUsers 8) bob.id =
      notifsFor dbTwoUsers bob.id :=
  masterFlagOff_evaluator_silent dbTwoUsers 8 bob (by decide) (by decide)
    (by decide)

/-! ## C2: the evaluator is NOT idempotent within an hour -/

/-- C2 counterexample: starting with no notifications, running the evaluator
twice at hour 8 for the eligible user Alice (meal toggle on) leaves TWO `meal`
notifications, not one: the source keeps no already-fired-this-hour state, so
the second run duplicates the breakfast reminder. -/
theorem evaluator_second_run_duplicates_counterexample :
    countTy (check_and_send_notifications
        (check_and_send_notifications dbTwoUsers 8) 8) alice.id "meal" = 2 ∧
    ¬ countTy (check_and_send_notifications
        (check_and_send_notifications dbTwoUsers 8) 8) alice.id "meal" = 1 := by
  decide

/-- C2 amended: at hour 8 with the meal toggle on, each evaluator run fires
exactly one fresh breakfast `meal` notification per eligible user; running the
evaluator twice while the wall-clock hour is still 8 therefore adds TWO such
notifications (the second run duplicates the first, as the evaluator derives no
already-fired state). -/
theorem evaluator_hour8_one_meal_per_run (d : DB) (u : UserRec)
    (hu : u ∈ d.users) (hnodup : (d.users.map (fun v => v.id)).Nodup)
    (hid : u.id ≠ 0) (hen : u.notifications_enabled = true)
    (hmeal : u.meal_reminder = true) :
    countTy (check_and_send_notifications d 8) u.id "meal" =
      countTy d u.id "meal" + 1 ∧
    countTy (check_and_send_notifications
        (check_and_send_notifications d 8) 8) u.id "meal" =
      countTy d u.id "meal" + 2 := by
  have key : ∀ d' : DB, d'.users = d.users →
      countTy (check_and_send_notifications d' 8) u.id "meal" =
        countTy d' u.id "meal" + 1 := by
    intro d' hud
    unfold check_and_send_notifications
    rw [hud, countTy_meal_loop8]
    have henl : u ∈ d.users.filter (fun v => v.notifications_enabled) :=
      List.mem_filter.mpr ⟨hu, by simp [hen]⟩
    have hnl : ((d.users.filter (fun v => v.notifications_enabled)).map
        (fun v => v.id)).Nodup :=
      hnodup.sublist ((List.filter_sublist d.users).map _)
    have hone : (d.users.filter (fun v => v.notifications_enabled)).filter
        (fun v => v.id == u.id && decide (v.id ≠ 0) && v.meal_reminder) = [u] := by
      refine filter_subpred_single _ u _ (fun v hv => ?_)
        (filter_id_single _ u hnl henl) (by simp [hid, hmeal])
      simp only [Bool.and_eq_true] at hv
      exact hv.1.1
    rw [List.countP_eq_length_filter, hone]
    rfl
  have h1 := key d rfl
  refine ⟨h1, ?_⟩
  have h2 := key (check_and_send_notifications d 8) (check_and_send_users d 8)
  rw [h2, h1]

/-- Witness for C2's amended statement: concrete two-user database, Alice
eligible at hour 8. -/
theorem evaluator_hour8_one_meal_per_run_witness :
    countTy (check_and_send_notifications dbTwoUsers 8) alice.id "meal" =
      countTy dbTwoUsers alice.id "meal" + 1 ∧
    countTy (check_and_send_notifications
        (check_and_send_notifications dbTwoUsers 8) 8) alice.id "meal" =
      countTy dbTwoUsers alice.id "meal" + 2 :=
  evaluator_hour8_one_meal_per_run dbTwoUsers alice (by decide) (by decide)
    (by decide) (by decide) (by decide)

/-! ## C3: `create_notification` persists one durable row before the push -/

/-- C3: one call to `create_notification` appends exactly one `Notification`
row — unread, owned by the target user — which the `listNotifications` query
returns first for any positive limit; the effect trace puts the durable persist
strictly before the push; and a registry with no connected channel for the user
receives no delivery while the durable write is unchanged (the first conjunct
holds regardless of `reg`). -/
theorem create_notification_durable (d : DB) (uid : Nat) (t m ty : String)
    (reg : List (String × Nat)) (limit : Nat) (huid : uid ≠ 0)
    (hlim : 0 < limit)
    (hreg : channelsFor reg ("user_" ++ toString uid) = []) :
    (create_notification d uid t m ty).1.notifications
        = d.notifications ++ [newNotif d uid t m ty] ∧
    (newNotif d uid t m ty).is_read = false ∧
    (newNotif d uid t m ty).user_id = uid ∧
    (listNotifications (create_notification d uid t m ty).1 uid false
        limit).head? = some (newNotif d uid t m ty) ∧
    (create_notification d uid t m ty).2
        = [Effect.persist (newNotif d uid t m ty),
           Effect.push ("user_" ++ toString uid)
             { title := t, message := m, type := ty }] ∧
    deliveries reg (create_notification d uid t m ty).2 = [] := by
  obtain ⟨k, rfl⟩ := Nat.exists_eq_succ_of_ne_zero (Nat.pos_iff_ne_zero.mp hlim)
  unfold create_notification
  rw [if_pos huid]
  refine ⟨rfl, rfl, rfl, ?_, rfl, ?_⟩
  · simp [listNotifications, List.filter_append, newNotif]
  · simp [deliveries, deliverEffect, hreg]

/-- Witness for C3 at a concrete call with an empty presence registry. -/
theorem create_notification_durable_witness :
    (create_notification emptyDB 1 "T" "M" "water").1.notifications
        = emptyDB.notifications ++ [newNotif emptyDB 1 "T" "M" "water"] ∧
    (newNotif emptyDB 1 "T" "M" "water").is_read = false ∧
    (newNotif emptyDB 1 "T" "M" "water").user_id = 1 ∧
    (listNotifications (create_notification emptyDB 1 "T" "M" "water").1 1 false
        20).head? = some (newNotif emptyDB 1 "T" "M" "water") ∧
    (create_notification emptyDB 1 "T" "M" "water").2
        = [Effect.persist (newNotif emptyDB 1 "T" "M" "water"),
           Effect.push ("user_" ++ toString 1)
             { title := "T", message := "M", type := "water" }] ∧
    deliveries [] (create_notification emptyDB 1 "T" "M" "water").2 = [] :=
  create_notification_durable emptyDB 1 "T" "M" "water" [] 20 (by decide)
    (by decide) (by decide)

/-! ## C4: friend-request uniqueness is symmetric -/

theorem find?_append_none {α : Type} (l1 l2 : List α) (p : α → Bool)
    (h : l1.find? p = none) : (l1 ++ l2).find? p = l2.find? p := by
  induction l1 with
  | nil => rfl
  | cons x t ih =>
      by_cases hx : p x = true
      · rw [List.find?_cons_of_pos _ hx] at h; cases h
      · rw [List.find?_cons_of_neg _ hx] at h
        rw [List.cons_append, List.find?_cons_of_neg _ hx]
        exact ih h

theorem lookupUserByUsername_users_eq (d d' : DB) (s : String)
    (h : d'.users = d.users) :
    lookupUserByUsername d' s = lookupUserByUsername d s := by
  unfold lookupUserByUsername; rw [h]

/-- C4: after a successful `sendRequest(a, b)`, the reverse `sendRequest(b, a)`
fails with the conflict error ("Friendship already exists", HTTP 400) and
exactly one friendship row exists for the unordered pair: the uniqueness check
covers both orientations. -/
theorem sendRequest_symmetric_conflict (d d' : DB) (a b : UserRec)
    (ha : lookupUserByUsername d a.username = some a)
    (hb : lookupUserByUsername d b.username = some b)
    (hne : a.id ≠ b.id)
    (hok : friends_send d a b.username = Except.ok d') :
    friends_send d' b a.username =
        Except.error (400, "Friendship already exists") ∧
    d'.friendships.countP (fun f =>
        (f.user_id == a.id && f.friend_id == b.id)
        || (f.user_id == b.id && f.friend_id == a.id)) = 1 := by
  have hba : (b.id == a.id) = false := by
    simp only [beq_eq_false_iff_ne, ne_eq]
    exact fun h => hne h.symm
  have hab : (a.id == b.id) = false := by
    simp only [beq_eq_false_iff_ne, ne_eq]
    exact hne
  rcases hfind : d.friendships.find? (fun f =>
      (f.user_id == a.id && f.friend_id == b.id)
      || (f.user_id == b.id && f.friend_id == a.id)) with _ | x
  case some =>
    rw [friends_send, hb] at hok
    simp only [hba, Bool.false_eq_true, if_false, hfind] at hok
    cases hok
  case none =>
    rw [friends_send, hb] at hok
    simp only [hba, Bool.false_eq_true, if_false, hfind] at hok
    have hokv := Except.ok.inj hok
    have hfrs : d'.friendships = d.friendships ++
        [{ id := d.nextFriendshipId, user_id := a.id, friend_id := b.id
           status := "pending" }] := by
      rw [← hokv]; exact notifyDb_friendships _ _ _ _ _
    have husers : d'.users = d.users := by
      rw [← hokv]; exact notifyDb_users _ _ _ _ _
    have hnone : d.friendships.find? (fun f =>
        (f.user_id == b.id && f.friend_id == a.id)
        || (f.user_id == a.id && f.friend_id == b.id)) = none := by
      rw [List.find?_eq_none] at hfind ⊢
      intro x hx
      have := hfind x hx
      simp only [Bool.or_eq_true, not_or] at this ⊢
      exact ⟨this.2, this.1⟩
    have hrev : d'.friendships.find? (fun f =>
        (f.user_id == b.id && f.friend_id == a.id)
        || (f.user_id == a.id && f.friend_id == b.id)) = some
        { id := d.nextFriendshipId, user_id := a.id, friend_id := b.id
          status := "pending" } := by
      rw [hfrs, find?_append_none _ _ _ hnone]
      simp
    constructor
    · rw [friends_send, lookupUserByUsername_users_eq d d' _ husers, ha]
      simp only [hab, Bool.false_eq_true, if_false, hrev]
    · rw [hfrs, List.countP_append]
      have hz : d.friendships.countP (fun f =>
          (f.user_id == a.id && f.friend_id == b.id)
          || (f.user_id == b.id && f.friend_id == a.id)) = 0 := by
        rw [List.countP_eq_zero]
        intro x hx
        have := List.find?_eq_none.mp hfind x hx
        simpa using this
      rw [hz]
      simp

/-- Witness for C4: in the two-user database, Alice's request to Carol succeeds
and Carol's reverse request conflicts. -/
theorem sendRequest_symmetric_conflict_witness :
    friends_send ((friends_send dbEnabledPair alice carol.username).toOption.getD
        dbEnabledPair) carol alice.username =
      Except.error (400, "Friendship already exists") ∧
    ((friends_send dbEnabledPair alice carol.username).toOption.getD
        dbEnabledPair).friendships.countP (fun f =>
        (f.user_id == alice.id && f.friend_id == carol.id)
        || (f.user_id == carol.id && f.friend_id == alice.id)) = 1 :=
  sendRequest_symmetric_conflict dbEnabledPair
    ((friends_send dbEnabledPair alice carol.username).toOption.getD dbEnabledPair)
    alice carol (by decide) (by decide) (by decide) (by rfl)

/-! ## C6: `respond` never checks that the row is still pending -/

theorem find?_map_update (l : List FriendshipRec) (fid : Nat) (f : FriendshipRec)
    (upd : FriendshipRec → FriendshipRec) (hupd : ∀ g, (upd g).id = g.id)
    (h : l.find? (fun g => g.id == fid) = some f) :
    (l.map (fun g => if g.id == fid then upd g else g)).find?
      (fun g => g.id == fid) = some (upd f) := by
  induction l with
  | nil => cases h
  | cons a t ih =>
      cases hx : a.id == fid with
      | true =>
          simp only [List.find?_cons, hx] at h
          obtain rfl := Option.some.inj h
          rw [List.map_cons, if_pos hx, List.find?_cons]
          have hu2 : ((upd a).id == fid) = true := by rw [hupd]; exact hx
          rw [hu2]
      | false =>
          simp only [List.find?_cons, hx] at h
          simp only [List.map_cons, hx, Bool.false_eq_true, if_false,
            List.find?_cons]
          exact ih h

theorem eraseP_find?_none (l : List FriendshipRec) (fid : Nat)
    (hn : (l.map (fun g => g.id)).Nodup) :
    (l.eraseP (fun g => g.id == fid)).find? (fun g => g.id == fid) = none := by
  induction l with
  | nil => rfl
  | cons a t ih =>
      simp only [List.map_cons, List.nodup_cons] at hn
      cases hx : a.id == fid with
      | true =>
          simp only [List.eraseP_cons, hx, cond_true]
          rw [List.find?_eq_none]
          intro x hxt
          simp only [beq_iff_eq]
          intro hxe
          apply hn.1
          have ha : a.id = fid := by simpa using hx
          rw [ha, ← hxe]
          exact List.mem_map_of_mem (fun g => g.id) hxt
      | false =>
          simp only [List.eraseP_cons, hx, cond_false, List.find?_cons]
          exact ih hn.2

/-- C6 counterexample: in `dbAccepted` the only friendship row already has
status `accepted`, yet `respond(1, bob, accept=true)` SUCCEEDS instead of
failing with the not-found error the claim requires for non-pending rows. -/
theorem respond_ignores_status_counterexample :
    (dbAccepted.friendships.find? (fun f => f.id == 1)).map (fun f => f.status)
        = some "accepted" ∧
    (friends_respond dbAccepted bob 1 true).isOk = true := by decide

/-- C6 amended: `respond(friendshipId, byUser, accept)` fails with the 404
not-found error exactly when the friendship does not exist or `byUser` is not
the recipient — the row's status is NOT checked (an `accepted` row can be
re-accepted). On success, accept=true sets the status to `accepted` and adds
one notification for the original requester; accept=false deletes the row and
sends no notification. -/
theorem respond_checks_existence_and_recipient_only (d : DB) (me : UserRec)
    (fid : Nat) (accept : Bool)
    (hnodup : (d.friendships.map (fun g => g.id)).Nodup)
    (hreq0 : ∀ f ∈ d.friendships, f.user_id ≠ 0) :
    (friends_respond d me fid accept).isOk =
      (d.friendships.find? (fun g => g.id == fid)).any
        (fun f => f.friend_id == me.id) ∧
    friends_respond d me fid accept =
      (if (d.friendships.find? (fun g => g.id == fid)).any
          (fun f => f.friend_id == me.id) = true
       then friends_respond d me fid accept
       else Except.error (404, "Friend request not found")) ∧
    ((friends_respond d me fid true).toOption.map (fun d2 =>
        (d2.friendships.find? (fun g => g.id == fid)).map (fun g => g.status)))
      = (if (d.friendships.find? (fun g => g.id == fid)).any
            (fun f => f.friend_id == me.id) = true
         then some (some "accepted") else none) ∧
    ((friends_respond d me fid true).toOption.bind (fun d2 =>
        (d.friendships.find? (fun g => g.id == fid)).map
          (fun f => notifCount d2 f.user_id)))
      = (if (d.friendships.find? (fun g => g.id == fid)).any
            (fun f => f.friend_id == me.id) = true
         then (d.friendships.find? (fun g => g.id == fid)).map
            (fun f => notifCount d f.user_id + 1)
         else none) ∧
    ((friends_respond d me fid false).toOption.map (fun d2 =>
        (d2.friendships.find? (fun g => g.id == fid), d2.notifications)))
      = (if (d.friendships.find? (fun g => g.id == fid)).any
            (fun f => f.friend_id == me.id) = true
         then some (none, d.notifications) else none) := by
  rcases hF : d.friendships.find? (fun g => g.id == fid) with _ | f
  · simp [friends_respond, hF, Except.isOk, Except.toBool, Except.toOption,
      Option.any]
  · have hmem : f ∈ d.friendships := List.mem_of_find?_eq_some hF
    by_cases hrec : (f.friend_id == me.id) = true
    · have hrec' : (f.friend_id != me.id) = false := by
        simp only [bne, hrec, Bool.not_true]
      have hacc : friends_respond d me fid true =
          Except.ok (notifyDb { d with friendships := d.friendships.map (fun g =>
            if g.id == fid then { g with status := "accepted" } else g) }
            f.user_id "Friend Request Accepted"
            (me.username ++ " accepted your friend request!") "social") := by
        rw [friends_respond, hF]
        simp [hrec']
      have hrej : friends_respond d me fid false =
          Except.ok { d with friendships :=
            d.friendships.eraseP (fun g => g.id == fid) } := by
        rw [friends_respond, hF]
        simp [hrec']
      have hok : (friends_respond d me fid accept).isOk = true := by
        cases accept
        · rw [hrej]; rfl
        · rw [hacc]; rfl
      refine ⟨?_, ?_, ?_, ?_, ?_⟩
      · rw [hok, hF]; simp [Option.any, hrec]
      · rw [hF]; simp [Option.any, hrec]
      · rw [hacc, hF]
        simp only [Except.toOption, Option.any, hrec, if_true, Option.map]
        rw [notifyDb_friendships]
        rw [find?_map_update d.friendships fid f
          (fun g => { g with status := "accepted" }) (fun g => rfl) hF]
      · rw [hacc, hF]
        simp only [Except.toOption, Option.any, hrec, if_true, Option.map,
          Option.bind]
        rw [notifCount_notifyDb]
        rw [if_pos ⟨rfl, hreq0 f hmem⟩]
        rfl
      · rw [hrej, hF]
        simp only [Except.toOption, Option.any, hrec, if_true, Option.map]
        rw [eraseP_find?_none d.friendships fid hnodup]
    · have hrec' : (f.friend_id != me.id) = true := by
        simp only [bne, Bool.not_eq_true']
        simpa using hrec
      have herr : ∀ ac : Bool, friends_respond d me fid ac =
          Except.error (404, "Friend request not found") := by
        intro ac
        rw [friends_respond, hF]
        simp [hrec']
      rw [herr, herr, herr, hF]
      simp [Option.any, hrec, Except.isOk, Except.toBool, Except.toOption]

/-- Witness for C6's amended statement: applying it to `dbAccepted` shows the
already-accepted row is re-acceptable (the isOk characterization). -/
theorem respond_checks_existence_and_recipient_only_witness :
    (friends_respond dbAccepted bob 1 true).isOk =
      (dbAccepted.friendships.find? (fun g => g.id == 1)).any
        (fun f => f.friend_id == bob.id) :=
  (respond_checks_existence_and_recipient_only dbAccepted bob 1 true
    (by decide) (by decide)).1

/-! ## C5: the like toggle -/

theorem find?_eraseP_of_le_one {α : Type} (l : List α) (p : α → Bool)
    (hle : (l.filter p).length ≤ 1) : (l.eraseP p).find? p = none := by
  induction l with
  | nil => rfl
  | cons a t ih =>
      cases hx : p a with
      | true =>
          simp only [List.eraseP_cons, hx, cond_true]
          have ht : t.filter p = [] := by
            rw [List.filter_cons_of_pos hx] at hle
            simp only [List.length_cons] at hle
            exact List.length_eq_zero.mp (by omega)
          rw [List.find?_eq_none]
          intro x hxt hpx
          have hmem : x ∈ t.filter p := List.mem_filter.mpr ⟨hxt, hpx⟩
          simp [ht] at hmem
      | false =>
          simp only [List.eraseP_cons, hx, cond_false, List.find?_cons]
          refine ih ?_
          rwa [List.filter_cons_of_neg (by simp [hx])] at hle

theorem find?_map_update_post (l : List PostRec) (pid : Nat) (p : PostRec)
    (upd : PostRec → PostRec) (hupd : ∀ q, (upd q).id = q.id)
    (h : l.find? (fun q => q.id == pid) = some p) :
    (l.map (fun q => if q.id == pid then upd q else q)).find?
      (fun q => q.id == pid) = some (upd p) := by
  induction l with
  | nil => cases h
  | cons a t ih =>
      cases hx : a.id == pid with
      | true =>
          simp only [List.find?_cons, hx] at h
          obtain rfl := Option.some.inj h
          rw [List.map_cons, if_pos hx, List.find?_cons]
          have hu2 : ((upd a).id == pid) = true := by rw [hupd]; exact hx
          rw [hu2]
      | false =>
          simp only [List.find?_cons, hx] at h
          simp only [List.map_cons, hx, Bool.false_eq_true, if_false,
            List.find?_cons]
          exact ih h

theorem getPost_setPostLikes (d : DB) (pid : Nat) (c : Int) (p : PostRec)
    (hp : getPost d pid = some p) :
    getPost (setPostLikes d pid c) pid = some { p with likes_count := c } := by
  unfold getPost at hp
  unfold getPost setPostLikes
  exact find?_map_update_post d.posts pid p
    (fun q => { q with likes_count := c }) (fun q => rfl) hp

theorem upd_likes_user_id (p : PostRec) (c : Int) :
    ({ p with likes_count := c } : PostRec).user_id = p.user_id := rfl

theorem upd_likes_likes_count (p : PostRec) (c : Int) :
    ({ p with likes_count := c } : PostRec).likes_count = c := rfl

theorem likedState_eq_false_iff (d : DB) (uid pid : Nat) :
    likedState d uid pid = false ↔
      d.postLikes.find? (fun l => l.post_id == pid && l.user_id == uid)
        = none := by
  unfold likedState
  cases hf : d.postLikes.find? (fun l => l.post_id == pid && l.user_id == uid) <;>
    simp [hf]

/-- Effect of the unlike branch of `like_post` (the caller already liked the
post): counter decremented, like row removed, no notification. -/
theorem like_post_unlike_step (d : DB) (me : UserRec) (pid : Nat) (p : PostRec)
    (r : DB × Bool × Int)
    (hp : getPost d pid = some p)
    (hlk : (d.postLikes.filter (fun l =>
        l.post_id == pid && l.user_id == me.id)).length ≤ 1)
    (hls : likedState d me.id pid = true)
    (h : like_post d me pid = Except.ok r) :
    r.2.1 = false ∧ r.2.2 = p.likes_count - 1 ∧
    getPost r.1 pid = some { p with likes_count := p.likes_count - 1 } ∧
    likedState r.1 me.id pid = false ∧
    r.1.notifications = d.notifications ∧
    (r.1.postLikes.filter (fun l =>
        l.post_id == pid && l.user_id == me.id)).length ≤ 1 := by
  rw [like_post, hp] at h
  simp only [hls, if_true] at h
  obtain rfl := Except.ok.inj h
  refine ⟨rfl, rfl, ?_, ?_, rfl, ?_⟩
  · exact getPost_setPostLikes _ pid _ p hp
  · rw [likedState_eq_false_iff]
    exact find?_eraseP_of_le_one _ _ hlk
  · show (List.length (List.filter _ (d.postLikes.eraseP _))) ≤ 1
    have hnone := find?_eraseP_of_le_one d.postLikes
      (fun l => l.post_id == pid && l.user_id == me.id) hlk
    have : (d.postLikes.eraseP (fun l =>
        l.post_id == pid && l.user_id == me.id)).filter (fun l =>
        l.post_id == pid && l.user_id == me.id) = [] :=
      List.filter_eq_nil_iff.mpr (by
        intro x hx hpx
        have := List.find?_eq_none.mp hnone x hx
        exact this hpx)
    rw [this]
    exact Nat.zero_le 1

/-- Effect of the like branch of `like_post` (no existing like): counter
incremented, like row added, owner notified unless liker = owner. -/
theorem like_post_like_step (d : DB) (me : UserRec) (pid : Nat) (p : PostRec)
    (r : DB × Bool × Int)
    (hp : getPost d pid = some p)
    (hls : likedState d me.id pid = false)
    (h : like_post d me pid = Except.ok r) :
    r.2.1 = true ∧ r.2.2 = p.likes_count + 1 ∧
    getPost r.1 pid = some { p with likes_count := p.likes_count + 1 } ∧
    likedState r.1 me.id pid = true ∧
    notifCount r.1 p.user_id = notifCount d p.user_id +
      (if p.user_id ≠ me.id ∧ p.user_id ≠ 0 then 1 else 0) ∧
    (∀ uid, uid ≠ p.user_id → notifsFor r.1 uid = notifsFor d uid) ∧
    (r.1.postLikes.filter (fun l =>
        l.post_id == pid && l.user_id == me.id)).length ≤ 1 := by
  have hnone : d.postLikes.find? (fun l =>
      l.post_id == pid && l.user_id == me.id) = none :=
    (likedState_eq_false_iff d me.id pid).mp hls
  have hfilnil : d.postLikes.filter (fun l =>
      l.post_id == pid && l.user_id == me.id) = [] :=
    List.filter_eq_nil_iff.mpr (by
      intro x hx hpx
      exact List.find?_eq_none.mp hnone x hx hpx)
  rw [like_post, hp] at h
  simp only [hls, Bool.false_eq_true, if_false] at h
  cases hnot : p.user_id != me.id with
  | true =>
      simp only [hnot, if_true] at h
      obtain rfl := Except.ok.inj h
      have hne : p.user_id ≠ me.id := by simpa using hnot
      refine ⟨rfl, rfl, ?_, ?_, ?_, ?_, ?_⟩
      · rw [getPost, notifyDb_posts, ← getPost]
        exact getPost_setPostLikes _ pid _ p hp
      · unfold likedState
        rw [notifyDb_postLikes]
        show ((d.postLikes ++ [_]).find? _).isSome = true
        rw [find?_append_none _ _ _ hnone]
        simp
      · rw [notifCount_notifyDb]
        by_cases hz : p.user_id = 0
        · rw [if_neg (by rintro ⟨g1, g2⟩; exact g2 hz),
            if_neg (by rintro ⟨g1, g2⟩; exact g2 hz)]
          rfl
        · rw [if_pos ⟨rfl, hz⟩, if_pos ⟨hne, hz⟩]
          rfl
      · intro uid huid
        rw [notifsFor_notifyDb]
        rw [if_neg (by
          rintro ⟨h1, h2⟩
          exact huid h1.symm)]
        rfl
      · rw [notifyDb_postLikes]
        show ((d.postLikes ++ [_]).filter _).length ≤ 1
        rw [List.filter_append, hfilnil]
        simp
  | false =>
      simp only [hnot, Bool.false_eq_true, if_false] at h
      obtain rfl := Except.ok.inj h
      have heq : p.user_id = me.id := by simpa using hnot
      refine ⟨rfl, rfl, ?_, ?_, ?_, ?_, ?_⟩
      · exact getPost_setPostLikes _ pid _ p hp
      · unfold likedState
        show ((d.postLikes ++ [_]).find? _).isSome = true
        rw [find?_append_none _ _ _ hnone]
        simp
      · rw [if_neg (by rintro ⟨h1, h2⟩; exact h1 heq)]
        rfl
      · intro uid huid
        rfl
      · show ((d.postLikes ++ [_]).filter _).length ≤ 1
        rw [List.filter_append, hfilnil]
        simp

/-- C5 counterexample: Alice has ALREADY liked Bob's post in `dbLiked`; after
two further like calls the reported `liked` state is `true`, not the `false`
the claim asserts for every user (the toggle ends where it started). -/
theorem like_twice_liked_state_counterexample :
    ((like_post dbLiked alice 1).toOption.bind (fun r1 =>
      (like_post r1.1 alice 1).toOption.map (fun r2 => r2.2.1))) = some true ∧
    ¬ ((like_post dbLiked alice 1).toOption.bind (fun r1 =>
      (like_post r1.1 alice 1).toOption.map (fun r2 => r2.2.1))) = some false := by
  decide

/-- C5 amended: two consecutive like calls by the same user on an existing post
restore the post row (in particular its `likes_count`) to its original value,
RETURN the user's liked state to its original value — `false` exactly when the
user had not already liked the post — and produce at most one notification to
the post owner (the removal direction never notifies). -/
theorem like_twice_restores (d : DB) (me : UserRec) (pid : Nat) (p : PostRec)
    (r1 r2 : DB × Bool × Int)
    (hp : getPost d pid = some p)
    (hlk : (d.postLikes.filter (fun l =>
        l.post_id == pid && l.user_id == me.id)).length ≤ 1)
    (h1 : like_post d me pid = Except.ok r1)
    (h2 : like_post r1.1 me pid = Except.ok r2) :
    getPost r2.1 pid = some p ∧
    likedState r2.1 me.id pid = likedState d me.id pid ∧
    r2.2.1 = likedState d me.id pid ∧
    notifCount r2.1 p.user_id ≤ notifCount d p.user_id + 1 := by
  cases hls : likedState d me.id pid with
  | true =>
      obtain ⟨ha1, ha2, ha3, ha4, ha5, ha6⟩ :=
        like_post_unlike_step d me pid p r1 hp hlk hls h1
      obtain ⟨hb1, hb2, hb3, hb4, hb5, hb6, hb7⟩ :=
        like_post_like_step r1.1 me pid _ r2 ha3 ha4 h2
      rw [upd_likes_user_id] at hb5
      rw [upd_likes_likes_count] at hb3
      have hcnt : notifCount r1.1 p.user_id = notifCount d p.user_id := by
        unfold notifCount notifsFor
        rw [ha5]
      refine ⟨?_, ?_, ?_, ?_⟩
      · rw [hb3]
        cases p
        simp
      · exact hb4
      · exact hb1
      · rw [hb5, hcnt]
        split <;> omega
  | false =>
      obtain ⟨ha1, ha2, ha3, ha4, ha5, ha6, ha7⟩ :=
        like_post_like_step d me pid p r1 hp hls h1
      obtain ⟨hb1, hb2, hb3, hb4, hb5, hb6⟩ :=
        like_post_unlike_step r1.1 me pid _ r2 ha3 ha7 ha4 h2
      rw [upd_likes_likes_count] at hb3
      refine ⟨?_, ?_, ?_, ?_⟩
      · rw [hb3]
        cases p
        simp
      · exact hb4
      · exact hb1
      · have hcnt : notifCount r2.1 p.user_id = notifCount r1.1 p.user_id := by
          unfold notifCount notifsFor
          rw [hb5]
        rw [hcnt, ha5]
        split <;> omega

/-- Witness for C5's amended statement at a concrete double-like by Alice on
Bob's post (already liked once, so the toggle removes then re-adds). -/
theorem like_twice_restores_witness :
    getPost likeTwice.1 1 = some { id := 1, user_id := 2, content := "hello"
                                   likes_count := 1, comments_count := 0 } ∧
    likedState likeTwice.1 alice.id 1 = likedState dbLiked alice.id 1 ∧
    likeTwice.2.1 = likedState dbLiked alice.id 1 ∧
    notifCount likeTwice.1 2 ≤ notifCount dbLiked 2 + 1 :=
  like_twice_restores dbLiked alice 1
    { id := 1, user_id := 2, content := "hello"
      likes_count := 1, comments_count := 0 }
    likeOnce likeTwice (by decide) (by decide) (by rfl) (by rfl)

/-! ## C7: a store error in one user's notification aborts the loop -/

/-- C7 counterexample: Alice (processed first) hits a store error at hour 8;
the whole evaluator run fails, so Carol — also enabled and due a breakfast
reminder — is never evaluated or notified. The claim's error isolation does not
exist: the loop body has no try/except. -/
theorem evaluator_store_error_aborts_counterexample :
    (check_and_send_notificationsE (fun uid => uid == 1) dbEnabledPair 8).isOk
      = false ∧
    (check_and_send_notificationsE (fun uid => uid == 0) dbEnabledPair 8).isOk
      = true := by
  decide

theorem checkUserRemindersE_fails (failing : Nat → Bool) (d0 : DB)
    (u : UserRec) (hmeal : u.meal_reminder = true) (hid : u.id ≠ 0)
    (hf : failing u.id = true) :
    checkUserRemindersE failing d0 u 8 = Except.error () := by
  cases hw : u.water_reminder <;>
    simp [checkUserRemindersE, create_notificationE, hw, hmeal, hf, hid,
      Bind.bind, Except.bind, Pure.pure, Except.pure]

theorem checkLoopE_error (failing : Nat → Bool) (u : UserRec)
    (hmeal : u.meal_reminder = true) (hid : u.id ≠ 0)
    (hf : failing u.id = true) :
    ∀ (l : List UserRec), u ∈ l → ∀ d0 : DB,
      checkLoopE failing 8 l d0 = Except.error () := by
  intro l
  induction l with
  | nil => intro h; cases h
  | cons v rest ih =>
      intro hmem d0
      rcases List.mem_cons.mp hmem with rfl | hur
      · have hstep : checkLoopE failing 8 (u :: rest) d0 =
            (do
              let d1 ← checkUserRemindersE failing d0 u 8
              checkLoopE failing 8 rest d1) := rfl
        rw [hstep, checkUserRemindersE_fails failing d0 u hmeal hid hf]
        rfl
      · have hstep : checkLoopE failing 8 (v :: rest) d0 =
            (do
              let d1 ← checkUserRemindersE failing d0 v 8
              checkLoopE failing 8 rest d1) := rfl
        rw [hstep]
        cases hv : checkUserRemindersE failing d0 v 8 with
        | error e => rfl
        | ok d1 => exact ih hur d1

/-- C7 amended: a store error raised inside `create_notification` for one user
of the reminder evaluator is NOT caught: the exception propagates out of
`check_and_send_notifications`, aborting the evaluation and notification of
every remaining user in the list (the loop contains no error handling). -/
theorem evaluator_store_error_propagates (d : DB) (failing : Nat → Bool)
    (u : UserRec) (hu : u ∈ d.users) (hen : u.notifications_enabled = true)
    (hmeal : u.meal_reminder = true) (hid : u.id ≠ 0)
    (hf : failing u.id = true) :
    check_and_send_notificationsE failing d 8 = Except.error () := by
  unfold check_and_send_notificationsE
  exact checkLoopE_error failing u hmeal hid hf _
    (List.mem_filter.mpr ⟨hu, by simp [hen]⟩) d

/-- Witness for C7's amended statement: the concrete aborted run. -/
theorem evaluator_store_error_propagates_witness :
    check_and_send_notificationsE (fun uid => uid == 1) dbEnabledPair 8
      = Except.error () :=
  evaluator_store_error_propagates dbEnabledPair (fun uid => uid == 1) alice
    (by decide) (by decide) (by decide) (by decide) (by decide)

/-! ## C8: social notification fan-out and the missing self-message guard -/

/-- Effect of a successful comment on the owner's notifications. -/
theorem comments_create_step (d : DB) (me : UserRec) (pid : Nat) (p : PostRec)
    (content : String) (d' : DB)
    (hp : getPost d pid = some p) (hpu : p.user_id ≠ 0)
    (hok : comments_create d me pid content = Except.ok d') :
    notifCount d' p.user_id = notifCount d p.user_id +
      (if p.user_id ≠ me.id then 1 else 0) ∧
    (∀ uid, uid ≠ p.user_id → notifsFor d' uid = notifsFor d uid) := by
  rw [comments_create, hp] at hok
  cases hnot : p.user_id != me.id with
  | true =>
      simp only [hnot, if_true] at hok
      obtain rfl := Except.ok.inj hok
      have hne : p.user_id ≠ me.id := by simpa using hnot
      constructor
      · rw [notifCount_notifyDb, if_pos ⟨rfl, hpu⟩, if_pos hne]
        rfl
      · intro uid huid
        rw [notifsFor_notifyDb,
          if_neg (by rintro ⟨g1, g2⟩; exact huid g1.symm)]
        rfl
  | false =>
      simp only [hnot, Bool.false_eq_true, if_false] at hok
      obtain rfl := Except.ok.inj hok
      have heq : p.user_id = me.id := by simpa using hnot
      constructor
      · rw [if_neg (by intro g; exact g heq)]
        rfl
      · intro uid huid
        rfl

/-- Effect of `handle_send_message` on the receiver's notifications: one new
notification, always (no sender-equals-receiver guard in the source). -/
theorem handle_send_message_notifs (d : DB) (me : UserRec) (rid : Nat)
    (content : String) (hrid : rid ≠ 0) :
    notifCount (handle_send_message d me rid content) rid =
      notifCount d rid + 1 ∧
    ∀ uid, uid ≠ rid →
      notifsFor (handle_send_message d me rid content) uid =
        notifsFor d uid := by
  constructor
  · show notifCount (notifyDb _ rid _ _ _) rid = _
    rw [notifCount_notifyDb, if_pos ⟨rfl, hrid⟩]
    rfl
  · intro uid huid
    show notifsFor (notifyDb _ rid _ _ _) uid = _
    rw [notifsFor_notifyDb, if_neg (by rintro ⟨g, _⟩; exact huid g.symm)]
    rfl

/-- C8 counterexample: a direct message from Alice TO HERSELF still creates a
notification for her (the handler has no actor-is-owner guard), where the claim
requires none. -/
theorem self_message_notifies_counterexample :
    notifCount (handle_send_message dbTwoUsers alice alice.id "hi") alice.id
      = 1 ∧
    notifCount dbTwoUsers alice.id = 0 := by
  decide

/-- C8 amended: a like creates exactly one notification to the post owner when
the like is being added and the liker is not the owner, and none otherwise (no
self-notification, no removal notification); a comment creates exactly one
notification to the owner unless the commenter is the owner; but an incoming
direct message ALWAYS creates exactly one notification to the receiver —
including when the sender messages themselves (the code lacks the self-message
guard). No third party ever receives a notification from these operations. -/
theorem social_notification_fanout (d : DB) (me : UserRec) (pid : Nat)
    (p : PostRec) (content : String) (rid uid : Nat) (r : DB × Bool × Int)
    (d'c : DB)
    (hp : getPost d pid = some p) (hpu : p.user_id ≠ 0)
    (hok : like_post d me pid = Except.ok r)
    (hokc : comments_create d me pid content = Except.ok d'c)
    (hrid : rid ≠ 0) (huid : uid ≠ p.user_id) (huid2 : uid ≠ rid) :
    notifCount r.1 p.user_id = notifCount d p.user_id +
      (if likedState d me.id pid = false ∧ p.user_id ≠ me.id then 1 else 0) ∧
    notifsFor r.1 uid = notifsFor d uid ∧
    notifCount d'c p.user_id = notifCount d p.user_id +
      (if p.user_id ≠ me.id then 1 else 0) ∧
    notifsFor d'c uid = notifsFor d uid ∧
    notifCount (handle_send_message d me rid content) rid =
      notifCount d rid + 1 ∧
    notifsFor (handle_send_message d me rid content) uid =
      notifsFor d uid := by
  obtain ⟨hc1, hc2⟩ := comments_create_step d me pid p content d'c hp hpu hokc
  obtain ⟨hm1, hm2⟩ := handle_send_message_notifs d me rid content hrid
  refine ⟨?_, ?_, hc1, hc2 uid huid, hm1, hm2 uid huid2⟩
  · cases hls : likedState d me.id pid with
    | true =>
        rw [like_post, hp] at hok
        simp only [hls, if_true] at hok
        obtain rfl := Except.ok.inj hok
        rw [if_neg (by rintro ⟨g, _⟩; cases g)]
        rfl
    | false =>
        rw [like_post, hp] at hok
        simp only [hls, Bool.false_eq_true, if_false] at hok
        cases hnot : p.user_id != me.id with
        | true =>
            simp only [hnot, if_true] at hok
            obtain rfl := Except.ok.inj hok
            have hne : p.user_id ≠ me.id := by simpa using hnot
            rw [notifCount_notifyDb, if_pos ⟨rfl, hpu⟩, if_pos ⟨rfl, hne⟩]
            rfl
        | false =>
            simp only [hnot, Bool.false_eq_true, if_false] at hok
            obtain rfl := Except.ok.inj hok
            have heq : p.user_id = me.id := by simpa using hnot
            rw [if_neg (by rintro ⟨_, g⟩; exact g heq)]
            rfl
  · cases hls : likedState d me.id pid with
    | true =>
        rw [like_post, hp] at hok
        simp only [hls, if_true] at hok
        obtain rfl := Except.ok.inj hok
        rfl
    | false =>
        rw [like_post, hp] at hok
        simp only [hls, Bool.false_eq_true, if_false] at hok
        cases hnot : p.user_id != me.id with
        | true =>
            simp only [hnot, if_true] at hok
            obtain rfl := Except.ok.inj hok
            rw [notifsFor_notifyDb,
              if_neg (by rintro ⟨g, _⟩; exact huid g.symm)]
            rfl
        | false =>
            simp only [hnot, Bool.false_eq_true, if_false] at hok
            obtain rfl := Except.ok.inj hok
            rfl

/-- Witness for C8's amended statement: the self-message conjunct at a
concrete call (Alice messages herself). -/
theorem social_notification_fanout_witness :
    notifCount (handle_send_message dbLiked alice 1 "nice") 1 =
      notifCount dbLiked 1 + 1 :=
  (social_notification_fanout dbLiked alice 1
    { id := 1, user_id := 2, content := "hello"
      likes_count := 1, comments_count := 0 }
    "nice" 1 3 likeOnce commentResult (by decide) (by decide) (by rfl)
    (by rfl) (by decide) (by decide) (by decide)).2.2.2.2.1

/-! ## C9: the counter invariant over reachable states -/

theorem countP_eraseP_of_find? {α : Type} (l : List α) (p q : α → Bool) (x : α)
    (h : l.find? p = some x) :
    l.countP q = (l.eraseP p).countP q + (if q x then 1 else 0) := by
  induction l with
  | nil => cases h
  | cons a t ih =>
      cases hx : p a with
      | true =>
          rw [List.find?_cons_of_pos _ hx] at h
          obtain rfl := Option.some.inj h
          rw [List.eraseP_cons_of_pos hx, List.countP_cons]
      | false =>
          rw [List.find?_cons_of_neg _ (by simp [hx])] at h
          rw [List.eraseP_cons_of_neg (by simp [hx]), List.countP_cons,
            List.countP_cons, ih h]
          omega

theorem countersConsistent_iff (d : DB) : countersConsistent d = true ↔
    ∀ p ∈ d.posts, p.likes_count = (likesOf d p.id : Int) ∧
      p.comments_count = (commentsOf d p.id : Int) := by
  unfold countersConsistent
  simp only [List.all_eq_true, Bool.and_eq_true, beq_iff_eq]

theorem countersConsistent_congr (d d' : DB) (hp : d'.posts = d.posts)
    (hl : d'.postLikes = d.postLikes) (hc : d'.comments = d.comments) :
    countersConsistent d' = countersConsistent d := by
  unfold countersConsistent likesOf commentsOf
  rw [hp, hl, hc]

theorem postIdBounds_congr (d d' : DB) (hp : d'.posts = d.posts)
    (hl : d'.postLikes = d.postLikes) (hc : d'.comments = d.comments)
    (hn : d'.nextPostId = d.nextPostId) :
    postIdBounds d' ↔ postIdBounds d := by
  unfold postIdBounds
  rw [hp, hl, hc, hn]

theorem notifyDb_nextPostId (d : DB) (v : Nat) (t m ty : String) :
    (notifyDb d v t m ty).nextPostId = d.nextPostId := by
  unfold notifyDb create_notification; split <;> rfl

/-- Invariant transfer along an operation that leaves the post tables alone. -/
theorem invFull_congr (d d' : DB) (hp : d'.posts = d.posts)
    (hl : d'.postLikes = d.postLikes) (hc : d'.comments = d.comments)
    (hn : d'.nextPostId = d.nextPostId)
    (h : countersConsistent d = true ∧ postIdBounds d) :
    countersConsistent d' = true ∧ postIdBounds d' := by
  rw [countersConsistent_congr d d' hp hl hc, postIdBounds_congr d d' hp hl hc hn]
  exact h

theorem notifyDb_invFull (d : DB) (v : Nat) (t m ty : String)
    (h : countersConsistent d = true ∧ postIdBounds d) :
    countersConsistent (notifyDb d v t m ty) = true ∧
      postIdBounds (notifyDb d v t m ty) :=
  invFull_congr d _ (notifyDb_posts _ _ _ _ _) (notifyDb_postLikes _ _ _ _ _)
    (notifyDb_comments _ _ _ _ _) (notifyDb_nextPostId _ _ _ _ _) h

theorem checkUserReminders_postFields (d : DB) (u : UserRec) (hr : Nat) :
    (checkUserReminders d u hr).posts = d.posts ∧
    (checkUserReminders d u hr).postLikes = d.postLikes ∧
    (checkUserReminders d u hr).comments = d.comments ∧
    (checkUserReminders d u hr).nextPostId = d.nextPostId := by
  unfold checkUserReminders
  split_ifs <;>
    simp_all [notifyDb_posts, notifyDb_postLikes, notifyDb_comments,
      notifyDb_nextPostId]

theorem check_and_send_postFields (d : DB) (hr : Nat) :
    (check_and_send_notifications d hr).posts = d.posts ∧
    (check_and_send_notifications d hr).postLikes = d.postLikes ∧
    (check_and_send_notifications d hr).comments = d.comments ∧
    (check_and_send_notifications d hr).nextPostId = d.nextPostId := by
  unfold check_and_send_notifications
  generalize d.users.filter (fun u => u.notifications_enabled) = l
  induction l generalizing d with
  | nil => exact ⟨rfl, rfl, rfl, rfl⟩
  | cons u rest ih =>
      simp only [List.foldl_cons]
      obtain ⟨i1, i2, i3, i4⟩ := ih (checkUserReminders d u hr)
      obtain ⟨j1, j2, j3, j4⟩ := checkUserReminders_postFields d u hr
      exact ⟨i1.trans j1, i2.trans j2, i3.trans j3, i4.trans j4⟩

theorem hydration_post_postFields (d : DB) (me : UserRec) (amt : Rat) :
    (hydration_post d me amt).posts = d.posts ∧
    (hydration_post d me amt).postLikes = d.postLikes ∧
    (hydration_post d me amt).comments = d.comments ∧
    (hydration_post d me amt).nextPostId = d.nextPostId := by
  simp only [hydration_post]
  split
  · exact ⟨notifyDb_posts _ _ _ _ _, notifyDb_postLikes _ _ _ _ _,
      notifyDb_comments _ _ _ _ _, notifyDb_nextPostId _ _ _ _ _⟩
  · exact ⟨rfl, rfl, rfl, rfl⟩

theorem sleep_post_postFields (d : DB) (me : UserRec) (dur : Rat) (q : Int) :
    (sleep_post d me dur q).posts = d.posts ∧
    (sleep_post d me dur q).postLikes = d.postLikes ∧
    (sleep_post d me dur q).comments = d.comments ∧
    (sleep_post d me dur q).nextPostId = d.nextPostId := by
  simp only [sleep_post]
  split
  · exact ⟨notifyDb_posts _ _ _ _ _, notifyDb_postLikes _ _ _ _ _,
      notifyDb_comments _ _ _ _ _, notifyDb_nextPostId _ _ _ _ _⟩
  · split
    · exact ⟨notifyDb_posts _ _ _ _ _, notifyDb_postLikes _ _ _ _ _,
        notifyDb_comments _ _ _ _ _, notifyDb_nextPostId _ _ _ _ _⟩
    · exact ⟨rfl, rfl, rfl, rfl⟩

theorem handle_send_message_postFields (d : DB) (me : UserRec) (rid : Nat)
    (content : String) :
    (handle_send_message d me rid content).posts = d.posts ∧
    (handle_send_message d me rid content).postLikes = d.postLikes ∧
    (handle_send_message d me rid content).comments = d.comments ∧
    (handle_send_message d me rid content).nextPostId = d.nextPostId := by
  unfold handle_send_message
  exact ⟨notifyDb_posts _ _ _ _ _, notifyDb_postLikes _ _ _ _ _,
    notifyDb_comments _ _ _ _ _, notifyDb_nextPostId _ _ _ _ _⟩

theorem friends_send_postFields (d : DB) (me : UserRec) (uname : String)
    (d' : DB) (hok : friends_send d me uname = Except.ok d') :
    d'.posts = d.posts ∧ d'.postLikes = d.postLikes ∧
    d'.comments = d.comments ∧ d'.nextPostId = d.nextPostId := by
  rw [friends_send] at hok
  rcases hl : lookupUserByUsername d uname with _ | fu <;> rw [hl] at hok
  · cases hok
  · cases hif : fu.id == me.id with
    | true => simp only [hif, if_true] at hok; cases hok
    | false =>
        simp only [hif, Bool.false_eq_true, if_false] at hok
        rcases hf : d.friendships.find? (fun f =>
            (f.user_id == me.id && f.friend_id == fu.id)
            || (f.user_id == fu.id && f.friend_id == me.id)) with _ | x <;>
          rw [hf] at hok
        · obtain rfl := Except.ok.inj hok
          exact ⟨notifyDb_posts _ _ _ _ _, notifyDb_postLikes _ _ _ _ _,
            notifyDb_comments _ _ _ _ _, notifyDb_nextPostId _ _ _ _ _⟩
        · cases hok

theorem friends_respond_postFields (d : DB) (me : UserRec) (fid : Nat)
    (acc : Bool) (d' : DB) (hok : friends_respond d me fid acc = Except.ok d') :
    d'.posts = d.posts ∧ d'.postLikes = d.postLikes ∧
    d'.comments = d.comments ∧ d'.nextPostId = d.nextPostId := by
  rw [friends_respond] at hok
  rcases hf : d.friendships.find? (fun f => f.id == fid) with _ | f <;>
    rw [hf] at hok
  · cases hok
  · cases hrec : f.friend_id != me.id with
    | true => simp only [hrec, if_true] at hok; cases hok
    | false =>
        simp only [hrec, Bool.false_eq_true, if_false] at hok
        cases acc with
        | true =>
            simp only [if_true] at hok
            obtain rfl := Except.ok.inj hok
            exact ⟨notifyDb_posts _ _ _ _ _, notifyDb_postLikes _ _ _ _ _,
              notifyDb_comments _ _ _ _ _, notifyDb_nextPostId _ _ _ _ _⟩
        | false =>
            simp only [Bool.false_eq_true, if_false] at hok
            obtain rfl := Except.ok.inj hok
            exact ⟨rfl, rfl, rfl, rfl⟩

theorem friends_remove_postFields (d : DB) (me : UserRec) (fid : Nat)
    (d' : DB) (hok : friends_remove d me fid = Except.ok d') :
    d'.posts = d.posts ∧ d'.postLikes = d.postLikes ∧
    d'.comments = d.comments ∧ d'.nextPostId = d.nextPostId := by
  rw [friends_remove] at hok
  rcases hf : d.friendships.find? (fun f => f.id == fid) with _ | f <;>
    rw [hf] at hok
  · cases hok
  · cases hcond : (f.user_id != me.id && f.friend_id != me.id) with
    | true => simp only [hcond, if_true] at hok; cases hok
    | false =>
        simp only [hcond, Bool.false_eq_true, if_false] at hok
        obtain rfl := Except.ok.inj hok
        exact ⟨rfl, rfl, rfl, rfl⟩

theorem fasting_post_postFields (d : DB) (me : UserRec) (tgt : Int)
    (d' : DB) (hok : fasting_post d me tgt = Except.ok d') :
    d'.posts = d.posts ∧ d'.postLikes = d.postLikes ∧
    d'.comments = d.comments ∧ d'.nextPostId = d.nextPostId := by
  rw [fasting_post] at hok
  rcases hf : d.fastingSessions.find? (fun s =>
      s.user_id == me.id && !s.completed) with _ | s <;> rw [hf] at hok
  · obtain rfl := Except.ok.inj hok
    exact ⟨notifyDb_posts _ _ _ _ _, notifyDb_postLikes _ _ _ _ _,
      notifyDb_comments _ _ _ _ _, notifyDb_nextPostId _ _ _ _ _⟩
  · cases hok

theorem fasting_put_postFields (d : DB) (me : UserRec) (sid : Nat)
    (d' : DB) (hok : fasting_put d me sid = Except.ok d') :
    d'.posts = d.posts ∧ d'.postLikes = d.postLikes ∧
    d'.comments = d.comments ∧ d'.nextPostId = d.nextPostId := by
  rw [fasting_put] at hok
  rcases hf : d.fastingSessions.find? (fun s => s.id == sid) with _ | s <;>
    rw [hf] at hok
  · cases hok
  · cases hcond : s.user_id != me.id with
    | true => simp only [hcond, if_true] at hok; cases hok
    | false =>
        simp only [hcond, Bool.false_eq_true, if_false] at hok
        obtain rfl := Except.ok.inj hok
        exact ⟨notifyDb_posts _ _ _ _ _, notifyDb_postLikes _ _ _ _ _,
          notifyDb_comments _ _ _ _ _, notifyDb_nextPostId _ _ _ _ _⟩

theorem posts_create_invFull (d : DB) (me : UserRec) (content : String)
    (h : countersConsistent d = true ∧ postIdBounds d) :
    countersConsistent (posts_create d me content) = true ∧
      postIdBounds (posts_create d me content) := by
  obtain ⟨hc, hb1, hb2, hb3⟩ := h
  constructor
  · rw [countersConsistent_iff]
    intro p hp
    have hlikes : ∀ z, likesOf (posts_create d me content) z = likesOf d z :=
      fun _ => rfl
    have hcomm : ∀ z, commentsOf (posts_create d me content) z =
        commentsOf d z := fun _ => rfl
    rw [hlikes, hcomm]
    have hp' : p ∈ d.posts ++ [newPost d me content] := hp
    rcases List.mem_append.mp hp' with hold | hnew
    · exact (countersConsistent_iff d).mp hc p hold
    · obtain rfl := List.mem_singleton.mp hnew
      have hl0 : likesOf d d.nextPostId = 0 := by
        refine List.countP_eq_zero.mpr (fun x hx => ?_)
        have := hb2 x hx
        simp only [beq_iff_eq]
        omega
      have hc0 : commentsOf d d.nextPostId = 0 := by
        refine List.countP_eq_zero.mpr (fun x hx => ?_)
        have := hb3 x hx
        simp only [beq_iff_eq]
        omega
      refine ⟨?_, ?_⟩
      · show (0 : Int) = (likesOf d d.nextPostId : Int)
        rw [hl0]
        rfl
      · show (0 : Int) = (commentsOf d d.nextPostId : Int)
        rw [hc0]
        rfl
  · refine ⟨?_, ?_, ?_⟩
    · intro p hp
      have hp' : p ∈ d.posts ++ [newPost d me content] := hp
      rcases List.mem_append.mp hp' with hold | hnew
      · have := hb1 p hold
        show p.id < d.nextPostId + 1
        omega
      · obtain rfl := List.mem_singleton.mp hnew
        show d.nextPostId < d.nextPostId + 1
        omega
    · intro l hl
      have := hb2 l hl
      show l.post_id < d.nextPostId + 1
      omega
    · intro c hcm
      have := hb3 c hcm
      show c.post_id < d.nextPostId + 1
      omega

theorem upd_likes_id (p : PostRec) (c : Int) :
    ({ p with likes_count := c } : PostRec).id = p.id := rfl

theorem upd_comments_id (p : PostRec) (c : Int) :
    ({ p with comments_count := c } : PostRec).id = p.id := rfl

/-- The inner state of the like-adding branch (before the optional
notification) keeps the counter invariant. -/
theorem like_add_base_invFull (d : DB) (me : UserRec) (pid : Nat)
    (post : PostRec) (hpostmem : post ∈ d.posts) (hpid : post.id = pid)
    (hplikes : post.likes_count = (likesOf d pid : Int))
    (hc : countersConsistent d = true) (hb : postIdBounds d) :
    countersConsistent (setPostLikes { d with
        postLikes := d.postLikes ++ [newLike d me pid],
        nextPostLikeId := d.nextPostLikeId + 1 } pid
        (post.likes_count + 1)) = true ∧
    postIdBounds (setPostLikes { d with
        postLikes := d.postLikes ++ [newLike d me pid],
        nextPostLikeId := d.nextPostLikeId + 1 } pid
        (post.likes_count + 1)) := by
  obtain ⟨hb1, hb2, hb3⟩ := hb
  have key : ∀ z, likesOf (setPostLikes { d with
      postLikes := d.postLikes ++ [newLike d me pid],
      nextPostLikeId := d.nextPostLikeId + 1 } pid (post.likes_count + 1)) z =
      likesOf d z + (if (pid == z) = true then 1 else 0) := by
    intro z
    show (d.postLikes ++ [newLike d me pid]).countP
        (fun l => l.post_id == z) = _
    rw [List.countP_append]
    congr 1
    simp [List.countP_cons, newLike]
  constructor
  · rw [countersConsistent_iff]
    intro q' hq'
    have hq'' : q' ∈ d.posts.map (fun q => if q.id == pid then
        { q with likes_count := post.likes_count + 1 } else q) := hq'
    obtain ⟨q, hq, rfl⟩ := List.mem_map.mp hq''
    obtain ⟨hql, hqc⟩ := (countersConsistent_iff d).mp hc q hq
    cases hqid : q.id == pid with
    | true =>
        have hqid' : q.id = pid := by simpa using hqid
        simp only [hqid, if_true]
        rw [key, upd_likes_id, hqid']
        refine ⟨?_, ?_⟩
        · show post.likes_count + 1 = _
          rw [if_pos (by simp)]
          rw [hplikes]
          push_cast
          ring
        · show q.comments_count = _
          rw [hqid'] at hqc
          exact hqc
    | false =>
        simp only [hqid, Bool.false_eq_true, if_false]
        rw [key]
        have hne : (pid == q.id) = false := by
          simp only [beq_eq_false_iff_ne, ne_eq]
          intro heq
          simp [heq.symm] at hqid
        rw [hne]
        exact ⟨by simpa using hql, hqc⟩
  · refine ⟨?_, ?_, ?_⟩
    · intro p2 hp2
      have hp2' : p2 ∈ d.posts.map (fun q => if q.id == pid then
          { q with likes_count := post.likes_count + 1 } else q) := hp2
      obtain ⟨q, hq, rfl⟩ := List.mem_map.mp hp2'
      have hqb := hb1 q hq
      cases hqid : q.id == pid with
      | true => simp only [hqid, if_true]; rw [upd_likes_id]; exact hqb
      | false => simp only [hqid, Bool.false_eq_true, if_false]; exact hqb
    · intro l hl
      have hl' : l ∈ d.postLikes ++ [newLike d me pid] := hl
      rcases List.mem_append.mp hl' with hold | hnew
      · exact hb2 l hold
      · obtain rfl := List.mem_singleton.mp hnew
        show pid < d.nextPostId
        rw [← hpid]
        exact hb1 post hpostmem
    · intro c hcm
      exact hb3 c hcm

/-- The inner state of the unlike branch keeps the counter invariant. -/
theorem like_remove_base_invFull (d : DB) (me : UserRec) (pid : Nat)
    (post : PostRec) (x : PostLikeRec)
    (hpid : post.id = pid)
    (hplikes : post.likes_count = (likesOf d pid : Int))
    (hc : countersConsistent d = true) (hb : postIdBounds d)
    (hx : d.postLikes.find? (fun l =>
        l.post_id == pid && l.user_id == me.id) = some x) :
    countersConsistent (setPostLikes { d with
        postLikes := d.postLikes.eraseP (fun l =>
          l.post_id == pid && l.user_id == me.id) } pid
        (post.likes_count - 1)) = true ∧
    postIdBounds (setPostLikes { d with
        postLikes := d.postLikes.eraseP (fun l =>
          l.post_id == pid && l.user_id == me.id) } pid
        (post.likes_count - 1)) := by
  obtain ⟨hb1, hb2, hb3⟩ := hb
  have hxpid : x.post_id = pid := by
    have := List.find?_some hx
    simp only [Bool.and_eq_true, beq_iff_eq] at this
    exact this.1
  have key : ∀ z, likesOf d z = likesOf (setPostLikes { d with
      postLikes := d.postLikes.eraseP (fun l =>
        l.post_id == pid && l.user_id == me.id) } pid
      (post.likes_count - 1)) z + (if (x.post_id == z) = true then 1 else 0) :=
    fun z => countP_eraseP_of_find? d.postLikes _ (fun l => l.post_id == z) x hx
  constructor
  · rw [countersConsistent_iff]
    intro q' hq'
    have hq'' : q' ∈ d.posts.map (fun q => if q.id == pid then
        { q with likes_count := post.likes_count - 1 } else q) := hq'
    obtain ⟨q, hq, rfl⟩ := List.mem_map.mp hq''
    obtain ⟨hql, hqc⟩ := (countersConsistent_iff d).mp hc q hq
    cases hqid : q.id == pid with
    | true =>
        have hqid' : q.id = pid := by simpa using hqid
        rw [hqid'] at hql
        simp only [hqid, if_true]
        rw [upd_likes_id, hqid']
        have kp := key pid
        rw [if_pos (by simpa using hxpid)] at kp
        refine ⟨?_, ?_⟩
        · show post.likes_count - 1 = _
          omega
        · show q.comments_count = _
          rw [hqid'] at hqc
          exact hqc
    | false =>
        simp only [hqid, Bool.false_eq_true, if_false]
        have hne : (x.post_id == q.id) = false := by
          simp only [beq_eq_false_iff_ne, ne_eq, hxpid]
          intro heq
          simp [heq.symm] at hqid
        have kq := key q.id
        rw [hne, if_neg (by simp), Nat.add_zero] at kq
        exact ⟨by rw [← kq]; exact hql, hqc⟩
  · refine ⟨?_, ?_, ?_⟩
    · intro p2 hp2
      have hp2' : p2 ∈ d.posts.map (fun q => if q.id == pid then
          { q with likes_count := post.likes_count - 1 } else q) := hp2
      obtain ⟨q, hq, rfl⟩ := List.mem_map.mp hp2'
      have hqb := hb1 q hq
      cases hqid : q.id == pid with
      | true => simp only [hqid, if_true]; rw [upd_likes_id]; exact hqb
      | false => simp only [hqid, Bool.false_eq_true, if_false]; exact hqb
    · intro l hl
      have hl' : l ∈ d.postLikes.eraseP (fun l =>
          l.post_id == pid && l.user_id == me.id) := hl
      exact hb2 l ((List.eraseP_sublist _).subset hl')
    · intro c hcm
      exact hb3 c hcm

/-- The inner state of a comment creation keeps the counter invariant. -/
theorem comment_add_base_invFull (d : DB) (me : UserRec) (pid : Nat)
    (post : PostRec) (content : String)
    (hpostmem : post ∈ d.posts) (hpid : post.id = pid)
    (hpcomm : post.comments_count = (commentsOf d pid : Int))
    (hc : countersConsistent d = true) (hb : postIdBounds d) :
    countersConsistent (setPostComments { d with
        comments := d.comments ++ [newComment d me pid content],
        nextCommentId := d.nextCommentId + 1 } pid
        (post.comments_count + 1)) = true ∧
    postIdBounds (setPostComments { d with
        comments := d.comments ++ [newComment d me pid content],
        nextCommentId := d.nextCommentId + 1 } pid
        (post.comments_count + 1)) := by
  obtain ⟨hb1, hb2, hb3⟩ := hb
  have key : ∀ z, commentsOf (setPostComments { d with
      comments := d.comments ++ [newComment d me pid content],
      nextCommentId := d.nextCommentId + 1 } pid
      (post.comments_count + 1)) z =
      commentsOf d z + (if (pid == z) = true then 1 else 0) := by
    intro z
    show (d.comments ++ [newComment d me pid content]).countP
        (fun c => c.post_id == z) = _
    rw [List.countP_append]
    congr 1
    simp [List.countP_cons, newComment]
  constructor
  · rw [countersConsistent_iff]
    intro q' hq'
    have hq'' : q' ∈ d.posts.map (fun q => if q.id == pid then
        { q with comments_count := post.comments_count + 1 } else q) := hq'
    obtain ⟨q, hq, rfl⟩ := List.mem_map.mp hq''
    obtain ⟨hql, hqc⟩ := (countersConsistent_iff d).mp hc q hq
    cases hqid : q.id == pid with
    | true =>
        have hqid' : q.id = pid := by simpa using hqid
        simp only [hqid, if_true]
        rw [key, upd_comments_id, hqid']
        refine ⟨?_, ?_⟩
        · show q.likes_count = _
          rw [hqid'] at hql
          exact hql
        · show post.comments_count + 1 = _
          rw [if_pos (by simp)]
          rw [hpcomm]
          push_cast
          ring
    | false =>
        simp only [hqid, Bool.false_eq_true, if_false]
        rw [key]
        have hne : (pid == q.id) = false := by
          simp only [beq_eq_false_iff_ne, ne_eq]
          intro heq
          simp [heq.symm] at hqid
        rw [hne]
        exact ⟨hql, by simpa using hqc⟩
  · refine ⟨?_, ?_, ?_⟩
    · intro p2 hp2
      have hp2' : p2 ∈ d.posts.map (fun q => if q.id == pid then
          { q with comments_count := post.comments_count + 1 } else q) := hp2
      obtain ⟨q, hq, rfl⟩ := List.mem_map.mp hp2'
      have hqb := hb1 q hq
      cases hqid : q.id == pid with
      | true => simp only [hqid, if_true]; rw [upd_comments_id]; exact hqb
      | false => simp only [hqid, Bool.false_eq_true, if_false]; exact hqb
    · intro l hl
      exact hb2 l hl
    · intro c hcm
      have hcm' : c ∈ d.comments ++ [newComment d me pid content] := hcm
      rcases List.mem_append.mp hcm' with hold | hnew
      · exact hb3 c hold
      · obtain rfl := List.mem_singleton.mp hnew
        show pid < d.nextPostId
        rw [← hpid]
        exact hb1 post hpostmem

theorem like_post_invFull (d : DB) (me : UserRec) (pid : Nat)
    (r : DB × Bool × Int) (hok : like_post d me pid = Except.ok r)
    (h : countersConsistent d = true ∧ postIdBounds d) :
    countersConsistent r.1 = true ∧ postIdBounds r.1 := by
  obtain ⟨hc, hb⟩ := h
  rw [like_post] at hok
  rcases hp : getPost d pid with _ | post <;> rw [hp] at hok
  · cases hok
  · have hpostmem : post ∈ d.posts := List.mem_of_find?_eq_some hp
    have hpid : post.id = pid := by
      have := List.find?_some hp
      simpa using this
    obtain ⟨hplikes, hpcomm⟩ := (countersConsistent_iff d).mp hc post hpostmem
    rw [hpid] at hplikes hpcomm
    cases hls : likedState d me.id pid with
    | true =>
        simp only [hls, if_true] at hok
        have hinj := Except.ok.inj hok
        rw [← hinj]
        have hsome : (d.postLikes.find? (fun l =>
            l.post_id == pid && l.user_id == me.id)).isSome = true := hls
        obtain ⟨x, hx⟩ := Option.isSome_iff_exists.mp hsome
        exact like_remove_base_invFull d me pid post x hpid hplikes hc hb hx
    | false =>
        simp only [hls, Bool.false_eq_true, if_false] at hok
        have hbase := like_add_base_invFull d me pid post hpostmem hpid
          hplikes hc hb
        cases hnot : post.user_id != me.id with
        | true =>
            simp only [hnot, if_true] at hok
            have hinj := Except.ok.inj hok
            rw [← hinj]
            exact notifyDb_invFull _ _ _ _ _ hbase
        | false =>
            simp only [hnot, Bool.false_eq_true, if_false] at hok
            have hinj := Except.ok.inj hok
            rw [← hinj]
            exact hbase

theorem comments_create_invFull (d : DB) (me : UserRec) (pid : Nat)
    (content : String) (d' : DB)
    (hok : comments_create d me pid content = Except.ok d')
    (h : countersConsistent d = true ∧ postIdBounds d) :
    countersConsistent d' = true ∧ postIdBounds d' := by
  obtain ⟨hc, hb⟩ := h
  rw [comments_create] at hok
  rcases hp : getPost d pid with _ | post <;> rw [hp] at hok
  · cases hok
  · have hpostmem : post ∈ d.posts := List.mem_of_find?_eq_some hp
    have hpid : post.id = pid := by
      have := List.find?_some hp
      simpa using this
    obtain ⟨hplikes, hpcomm⟩ := (countersConsistent_iff d).mp hc post hpostmem
    rw [hpid] at hplikes hpcomm
    have hbase := comment_add_base_invFull d me pid post content hpostmem
      hpid hpcomm hc hb
    cases hnot : post.user_id != me.id with
    | true =>
        simp only [hnot, if_true] at hok
        have hinj := Except.ok.inj hok
        rw [← hinj]
        exact notifyDb_invFull _ _ _ _ _ hbase
    | false =>
        simp only [hnot, Bool.false_eq_true, if_false] at hok
        have hinj := Except.ok.inj hok
        rw [← hinj]
        exact hbase

/-- Every reachable state satisfies the counter invariant together with the
id-bound auxiliary invariant. -/
theorem reach_invFull (d : DB) (h : Reach d) :
    countersConsistent d = true ∧ postIdBounds d := by
  induction h with
  | init =>
      refine ⟨by decide, ?_, ?_, ?_⟩ <;> intro x hx <;> cases hx
  | createPost me content h ih => exact posts_create_invFull _ me content ih
  | like h hok ih => exact like_post_invFull _ _ _ _ hok ih
  | comment h hok ih => exact comments_create_invFull _ _ _ _ _ hok ih
  | message me rid content h ih =>
      obtain ⟨f1, f2, f3, f4⟩ := handle_send_message_postFields _ me rid content
      exact invFull_congr _ _ f1 f2 f3 f4 ih
  | friendSend h hok ih =>
      obtain ⟨f1, f2, f3, f4⟩ := friends_send_postFields _ _ _ _ hok
      exact invFull_congr _ _ f1 f2 f3 f4 ih
  | friendRespond h hok ih =>
      obtain ⟨f1, f2, f3, f4⟩ := friends_respond_postFields _ _ _ _ _ hok
      exact invFull_congr _ _ f1 f2 f3 f4 ih
  | friendRemove h hok ih =>
      obtain ⟨f1, f2, f3, f4⟩ := friends_remove_postFields _ _ _ _ hok
      exact invFull_congr _ _ f1 f2 f3 f4 ih
  | evaluator hr h ih =>
      obtain ⟨f1, f2, f3, f4⟩ := check_and_send_postFields _ hr
      exact invFull_congr _ _ f1 f2 f3 f4 ih
  | hydration me amt h ih =>
      obtain ⟨f1, f2, f3, f4⟩ := hydration_post_postFields _ me amt
      exact invFull_congr _ _ f1 f2 f3 f4 ih
  | sleep me dur q h ih =>
      obtain ⟨f1, f2, f3, f4⟩ := sleep_post_postFields _ me dur q
      exact invFull_congr _ _ f1 f2 f3 f4 ih
  | fastingStart h hok ih =>
      obtain ⟨f1, f2, f3, f4⟩ := fasting_post_postFields _ _ _ _ hok
      exact invFull_congr _ _ f1 f2 f3 f4 ih
  | fastingEnd h hok ih =>
      obtain ⟨f1, f2, f3, f4⟩ := fasting_put_postFields _ _ _ _ hok
      exact invFull_congr _ _ f1 f2 f3 f4 ih
  | notify uid t m ty h ih => exact notifyDb_invFull _ uid t m ty ih

/-- C9: in every reachable state, every post's `likes_count` equals the number
of `PostLike` rows referencing it and its `comments_count` equals the number of
`Comment` rows referencing it; all modelled operations — in particular those
that create or delete a like or create a comment — preserve this equality,
since reachability is closed under them. -/
theorem reachable_counters_consistent (d : DB) (h : Reach d) :
    countersConsistent d = true :=
  (reach_invFull d h).1

/-- Witness for C9 at a concrete reachable state: Alice posts, Bob likes it. -/
theorem reachable_counters_consistent_witness :
    countersConsistent likedR.1 = true :=
  reachable_counters_consistent likedR.1
    (Reach.like (Reach.createPost alice "hi" Reach.init)
      (show like_post dbPosted bob 1 = Except.ok likedR from rfl))

/-! ## C10: `notifications_enabled` gates only the reminder evaluator -/

theorem hydration_post_goal_notifies (d : DB) (me : UserRec) (amt : Rat)
    (hid : me.id ≠ 0) (htot : 2500 ≤ waterTotal d me.id + amt) :
    countTy (hydration_post d me amt) me.id "water" =
      countTy d me.id "water" + 1 := by
  have hsum : (((d.waterLogs ++
      [({ id := d.nextWaterLogId, user_id := me.id, amount := amt } :
        WaterLogRec)]).filter
      (fun l => l.user_id == me.id)).map (fun l => l.amount)).sum =
      waterTotal d me.id + amt := by
    rw [List.filter_append, List.map_append, List.sum_append]
    simp [waterTotal]
  simp only [hydration_post]
  rw [if_pos (htot.trans_eq hsum.symm)]
  rw [countTy_notifyDb, if_pos ⟨rfl, hid, rfl⟩]
  rfl

theorem sleep_post_short_notifies (d : DB) (me : UserRec) (dur : Rat) (q : Int)
    (hid : me.id ≠ 0) (hdur : dur < 6) :
    countTy (sleep_post d me dur q) me.id "sleep" =
      countTy d me.id "sleep" + 1 := by
  simp only [sleep_post]
  rw [if_pos hdur, countTy_notifyDb, if_pos ⟨rfl, hid, rfl⟩]
  rfl

theorem sleep_post_quality_notifies (d : DB) (me : UserRec) (dur : Rat)
    (q : Int) (hid : me.id ≠ 0) (hdur : ¬ dur < 6) (hq : q < 5) :
    countTy (sleep_post d me dur q) me.id "sleep" =
      countTy d me.id "sleep" + 1 := by
  simp only [sleep_post]
  rw [if_neg hdur, if_pos hq, countTy_notifyDb, if_pos ⟨rfl, hid, rfl⟩]
  rfl

theorem fasting_post_notifies (d : DB) (me : UserRec) (tgt : Int)
    (hid : me.id ≠ 0)
    (hfast : d.fastingSessions.find? (fun s =>
        s.user_id == me.id && !s.completed) = none) :
    (fasting_post d me tgt).toOption.map (fun d2 =>
        countTy d2 me.id "fasting") =
      some (countTy d me.id "fasting" + 1) := by
  rw [fasting_post, hfast]
  simp only [Except.toOption, Option.map]
  rw [countTy_notifyDb, if_pos ⟨rfl, hid, rfl⟩]
  rfl

theorem fasting_put_notifies (d : DB) (me : UserRec) (sid : Nat)
    (s0 : FastingRec) (hid : me.id ≠ 0)
    (hsess : d.fastingSessions.find? (fun s => s.id == sid) = some s0)
    (hsown : s0.user_id = me.id) :
    (fasting_put d me sid).toOption.map (fun d2 =>
        countTy d2 me.id "fasting") =
      some (countTy d me.id "fasting" + 1) := by
  rw [fasting_put, hsess]
  have hcond : (s0.user_id != me.id) = false := by
    simp [hsown]
  simp only [hcond, Bool.false_eq_true, if_false, Except.toOption, Option.map]
  rw [countTy_notifyDb, if_pos ⟨rfl, hid, rfl⟩]
  rfl

theorem friends_send_notifies (d : DB) (a u : UserRec) (hid : u.id ≠ 0)
    (hlook : lookupUserByUsername d u.username = some u)
    (hane : a.id ≠ u.id)
    (hnofr : d.friendships.find? (fun f =>
        (f.user_id == a.id && f.friend_id == u.id)
        || (f.user_id == u.id && f.friend_id == a.id)) = none) :
    (friends_send d a u.username).toOption.map (fun d2 =>
        countTy d2 u.id "social") =
      some (countTy d u.id "social" + 1) := by
  rw [friends_send, hlook]
  have hcond : (u.id == a.id) = false := by
    simp only [beq_eq_false_iff_ne, ne_eq]
    exact fun h2 => hane h2.symm
  simp only [hcond, Bool.false_eq_true, if_false, hnofr, Except.toOption,
    Option.map]
  rw [countTy_notifyDb, if_pos ⟨rfl, hid, rfl⟩]
  rfl

theorem like_post_notifies_owner (d : DB) (a : UserRec) (pid : Nat)
    (p : PostRec) (hp : getPost d pid = some p) (hpid0 : p.user_id ≠ 0)
    (hane : a.id ≠ p.user_id) (hnl : likedState d a.id pid = false) :
    (like_post d a pid).toOption.map (fun r => countTy r.1 p.user_id "social")
      = some (countTy d p.user_id "social" + 1) := by
  rw [like_post, hp]
  have hcond : (p.user_id != a.id) = true := by
    simp only [bne_iff_ne, ne_eq]
    exact fun h2 => hane h2.symm
  simp only [hnl, Bool.false_eq_true, if_false, hcond, if_true,
    Except.toOption, Option.map]
  rw [countTy_notifyDb, if_pos ⟨rfl, hpid0, rfl⟩]
  rfl

theorem send_message_notifies (d : DB) (a : UserRec) (rid : Nat)
    (content : String) (hid : rid ≠ 0) :
    countTy (handle_send_message d a rid content) rid "social" =
      countTy d rid "social" + 1 := by
  show countTy (notifyDb _ rid _ _ _) rid "social" = _
  rw [countTy_notifyDb, if_pos ⟨rfl, hid, rfl⟩]
  rfl

theorem comments_create_notifies (d : DB) (a : UserRec) (pid : Nat)
    (p : PostRec) (content : String) (hp : getPost d pid = some p)
    (hpid0 : p.user_id ≠ 0) (hane : a.id ≠ p.user_id) :
    (comments_create d a pid content).toOption.map (fun d2 =>
        countTy d2 p.user_id "social") =
      some (countTy d p.user_id "social" + 1) := by
  rw [comments_create, hp]
  have hcond : (p.user_id != a.id) = true := by
    simp only [bne_iff_ne, ne_eq]
    exact fun h2 => hane h2.symm
  simp only [hcond, if_true, Except.toOption, Option.map]
  rw [countTy_notifyDb, if_pos ⟨rfl, hpid0, rfl⟩]
  rfl

theorem friends_accept_notifies (d : DB) (b : UserRec) (fid : Nat)
    (f : FriendshipRec)
    (hfr : d.friendships.find? (fun g => g.id == fid) = some f)
    (hfrec : f.friend_id = b.id) (hf0 : f.user_id ≠ 0) :
    (friends_respond d b fid true).toOption.map (fun d2 =>
        countTy d2 f.user_id "social") =
      some (countTy d f.user_id "social" + 1) := by
  rw [friends_respond, hfr]
  have hcond : (f.friend_id != b.id) = false := by simp [hfrec]
  simp only [hcond, Bool.false_eq_true, if_false, if_true, Except.toOption,
    Option.map]
  rw [countTy_notifyDb, if_pos ⟨rfl, hf0, rfl⟩]
  rfl

/-- `create_notification` for a truthy user id always emits the persist
followed by the push of the same payload; it consults no user preference. -/
theorem create_notification_trace (d : DB) (uid : Nat) (t m ty : String)
    (h : uid ≠ 0) :
    (create_notification d uid t m ty).2 =
      [Effect.persist (newNotif d uid t m ty),
       Effect.push ("user_" ++ toString uid)
         { title := t, message := m, type := ty }] := by
  unfold create_notification
  rw [if_pos h]

theorem hydration_post_storeAndPush (d : DB) (me : UserRec) (amt : Rat)
    (hid : me.id ≠ 0) (htot : 2500 ≤ waterTotal d me.id + amt) :
    storeAndPush (hydration_post d me amt) (waterLogged d me amt) me.id
      "Water Goal Achieved!" "You have reached your daily water goal!"
      "water" := by
  constructor
  · have hsum : (((d.waterLogs ++
        [({ id := d.nextWaterLogId, user_id := me.id, amount := amt } :
          WaterLogRec)]).filter
        (fun l => l.user_id == me.id)).map (fun l => l.amount)).sum =
        waterTotal d me.id + amt := by
      rw [List.filter_append, List.map_append, List.sum_append]
      simp [waterTotal]
    simp only [hydration_post]
    rw [if_pos (htot.trans_eq hsum.symm)]
    rfl
  · exact create_notification_trace _ _ _ _ _ hid

theorem sleep_post_short_storeAndPush (d : DB) (me : UserRec) (dur : Rat)
    (q : Int) (hid : me.id ≠ 0) (hdur : dur < 6) :
    storeAndPush (sleep_post d me dur q) (sleepLogged d me dur q) me.id
      "Sleep Alert" "You got less than 6 hours of sleep. Try to get more rest!"
      "sleep" := by
  constructor
  · simp only [sleep_post]
    rw [if_pos hdur]
    rfl
  · exact create_notification_trace _ _ _ _ _ hid

theorem sleep_post_quality_storeAndPush (d : DB) (me : UserRec) (dur : Rat)
    (q : Int) (hid : me.id ≠ 0) (hdur : ¬ dur < 6) (hq : q < 5) :
    storeAndPush (sleep_post d me dur q) (sleepLogged d me dur q) me.id
      "Improve Sleep Quality"
      "Your sleep quality was low. Consider relaxation techniques."
      "sleep" := by
  constructor
  · simp only [sleep_post]
    rw [if_neg hdur, if_pos hq]
    rfl
  · exact create_notification_trace _ _ _ _ _ hid

theorem fasting_post_storeAndPush (d : DB) (me : UserRec) (tgt : Int)
    (hid : me.id ≠ 0)
    (hfast : d.fastingSessions.find? (fun s =>
        s.user_id == me.id && !s.completed) = none) :
    storeAndPushO (fasting_post d me tgt).toOption (fastingStarted d me tgt)
      me.id "Fasting Started" (toString tgt ++ "-hour fast has started!")
      "fasting" := by
  constructor
  · rw [fasting_post, hfast]
    rfl
  · exact create_notification_trace _ _ _ _ _ hid

theorem fasting_put_storeAndPush (d : DB) (me : UserRec) (sid : Nat)
    (s0 : FastingRec) (hid : me.id ≠ 0)
    (hsess : d.fastingSessions.find? (fun s => s.id == sid) = some s0)
    (hsown : s0.user_id = me.id) :
    storeAndPushO (fasting_put d me sid).toOption (fastingCompleted d sid)
      me.id "Fasting Completed"
      ("You completed a " ++ toString s0.target_duration ++ "-hour fast!")
      "fasting" := by
  constructor
  · rw [fasting_put, hsess]
    have hcond : (s0.user_id != me.id) = false := by simp [hsown]
    simp only [hcond, Bool.false_eq_true, if_false]
    rfl
  · exact create_notification_trace _ _ _ _ _ hid

theorem friends_send_storeAndPush (d : DB) (a u : UserRec) (hid : u.id ≠ 0)
    (hlook : lookupUserByUsername d u.username = some u)
    (hane : a.id ≠ u.id)
    (hnofr : d.friendships.find? (fun f =>
        (f.user_id == a.id && f.friend_id == u.id)
        || (f.user_id == u.id && f.friend_id == a.id)) = none) :
    storeAndPushO (friends_send d a u.username).toOption (requestAdded d a u)
      u.id "New Friend Request" (a.username ++ " sent you a friend request!")
      "social" := by
  constructor
  · rw [friends_send, hlook]
    have hcond : (u.id == a.id) = false := by
      simp only [beq_eq_false_iff_ne, ne_eq]
      exact fun h2 => hane h2.symm
    simp only [hcond, Bool.false_eq_true, if_false, hnofr]
    rfl
  · exact create_notification_trace _ _ _ _ _ hid

theorem friends_accept_storeAndPush (d : DB) (b : UserRec) (fid : Nat)
    (f : FriendshipRec)
    (hfr : d.friendships.find? (fun g => g.id == fid) = some f)
    (hfrec : f.friend_id = b.id) (hf0 : f.user_id ≠ 0) :
    storeAndPushO (friends_respond d b fid true).toOption (acceptApplied d fid)
      f.user_id "Friend Request Accepted"
      (b.username ++ " accepted your friend request!") "social" := by
  constructor
  · rw [friends_respond, hfr]
    have hcond : (f.friend_id != b.id) = false := by simp [hfrec]
    simp only [hcond, Bool.false_eq_true, if_false, if_true]
    rfl
  · exact create_notification_trace _ _ _ _ _ hf0

theorem like_post_storeAndPush (d : DB) (a : UserRec) (pid : Nat)
    (p : PostRec) (hp : getPost d pid = some p) (hpid0 : p.user_id ≠ 0)
    (hane : a.id ≠ p.user_id) (hnl : likedState d a.id pid = false) :
    storeAndPushO ((like_post d a pid).toOption.map (fun r => r.1))
      (likeApplied d a pid p) p.user_id "New Like"
      (a.username ++ " liked your post!") "social" := by
  constructor
  · rw [like_post, hp]
    have hcond : (p.user_id != a.id) = true := by
      simp only [bne_iff_ne, ne_eq]
      exact fun h2 => hane h2.symm
    simp only [hnl, Bool.false_eq_true, if_false, hcond, if_true,
      Except.toOption, Option.map]
    rfl
  · exact create_notification_trace _ _ _ _ _ hpid0

theorem comments_create_storeAndPush (d : DB) (a : UserRec) (pid : Nat)
    (p : PostRec) (content : String) (hp : getPost d pid = some p)
    (hpid0 : p.user_id ≠ 0) (hane : a.id ≠ p.user_id) :
    storeAndPushO (comments_create d a pid content).toOption
      (commentApplied d a pid p content) p.user_id "New Comment"
      (a.username ++ " commented on your post!") "social" := by
  constructor
  · rw [comments_create, hp]
    have hcond : (p.user_id != a.id) = true := by
      simp only [bne_iff_ne, ne_eq]
      exact fun h2 => hane h2.symm
    simp only [hcond, if_true]
    rfl
  · exact create_notification_trace _ _ _ _ _ hpid0

theorem send_message_storeAndPush (d : DB) (a : UserRec) (rid : Nat)
    (content : String) (hid : rid ≠ 0) :
    storeAndPush (handle_send_message d a rid content)
      (messageLogged d a rid content) rid "New Message"
      (a.username ++ " sent you a message") "social" :=
  ⟨rfl, create_notification_trace _ _ _ _ _ hid⟩

/-- C10: the master `notifications_enabled` flag gates only the hourly
reminder evaluator. Every other producing path — the water-goal achievement,
the short-sleep and low-quality sleep alerts, fasting start and completion,
the friend request, the friend-request acceptance, the like of the user's
post, a comment on the user's post, and an incoming direct message — still
notifies a user `u` whose flag is false: each path adds exactly one
notification row of its category for `u`, and each path both persists the
row and pushes the same payload to the `user_<id>` room (the `storeAndPush`
conjuncts pin the result state and the persist-then-push effect trace of the
unconditional `create_notification` call). None of these paths consults the
flag. -/
theorem flag_gates_only_evaluator (d : DB) (u a b : UserRec) (amt : Rat)
    (dur1 dur2 : Rat) (q1 q2 : Int) (tgt : Int) (sid : Nat) (s0 : FastingRec)
    (pid : Nat) (p : PostRec) (content : String) (fid : Nat)
    (f : FriendshipRec)
    (hflag : u.notifications_enabled = false) (hid : u.id ≠ 0)
    (htot : 2500 ≤ waterTotal d u.id + amt)
    (hdur : dur1 < 6) (hdur2 : ¬ dur2 < 6) (hq : q2 < 5)
    (hfast : d.fastingSessions.find? (fun s =>
        s.user_id == u.id && !s.completed) = none)
    (hsess : d.fastingSessions.find? (fun s => s.id == sid) = some s0)
    (hsown : s0.user_id = u.id)
    (hlook : lookupUserByUsername d u.username = some u)
    (hane : a.id ≠ u.id)
    (hnofr : d.friendships.find? (fun g =>
        (g.user_id == a.id && g.friend_id == u.id)
        || (g.user_id == u.id && g.friend_id == a.id)) = none)
    (hp : getPost d pid = some p) (hpo : p.user_id = u.id)
    (hnl : likedState d a.id pid = false)
    (hfr : d.friendships.find? (fun g => g.id == fid) = some f)
    (hfrec : f.friend_id = b.id) (hfreq : f.user_id = u.id) :
    countTy (hydration_post d u amt) u.id "water" =
      countTy d u.id "water" + 1 ∧
    countTy (sleep_post d u dur1 q1) u.id "sleep" =
      countTy d u.id "sleep" + 1 ∧
    countTy (sleep_post d u dur2 q2) u.id "sleep" =
      countTy d u.id "sleep" + 1 ∧
    (fasting_post d u tgt).toOption.map (fun d2 =>
        countTy d2 u.id "fasting") = some (countTy d u.id "fasting" + 1) ∧
    (fasting_put d u sid).toOption.map (fun d2 =>
        countTy d2 u.id "fasting") = some (countTy d u.id "fasting" + 1) ∧
    (friends_send d a u.username).toOption.map (fun d2 =>
        countTy d2 u.id "social") = some (countTy d u.id "social" + 1) ∧
    (like_post d a pid).toOption.map (fun r => countTy r.1 u.id "social")
      = some (countTy d u.id "social" + 1) ∧
    countTy (handle_send_message d a u.id content) u.id "social" =
      countTy d u.id "social" + 1 ∧
    (comments_create d a pid content).toOption.map (fun d2 =>
        countTy d2 u.id "social") = some (countTy d u.id "social" + 1) ∧
    (friends_respond d b fid true).toOption.map (fun d2 =>
        countTy d2 u.id "social") = some (countTy d u.id "social" + 1) ∧
    storeAndPush (hydration_post d u amt) (waterLogged d u amt) u.id
      "Water Goal Achieved!" "You have reached your daily water goal!"
      "water" ∧
    storeAndPush (sleep_post d u dur1 q1) (sleepLogged d u dur1 q1) u.id
      "Sleep Alert" "You got less than 6 hours of sleep. Try to get more rest!"
      "sleep" ∧
    storeAndPush (sleep_post d u dur2 q2) (sleepLogged d u dur2 q2) u.id
      "Improve Sleep Quality"
      "Your sleep quality was low. Consider relaxation techniques." "sleep" ∧
    storeAndPushO (fasting_post d u tgt).toOption (fastingStarted d u tgt)
      u.id "Fasting Started" (toString tgt ++ "-hour fast has started!")
      "fasting" ∧
    storeAndPushO (fasting_put d u sid).toOption (fastingCompleted d sid)
      u.id "Fasting Completed"
      ("You completed a " ++ toString s0.target_duration ++ "-hour fast!")
      "fasting" ∧
    storeAndPushO (friends_send d a u.username).toOption (requestAdded d a u)
      u.id "New Friend Request" (a.username ++ " sent you a friend request!")
      "social" ∧
    storeAndPushO (friends_respond d b fid true).toOption (acceptApplied d fid)
      u.id "Friend Request Accepted"
      (b.username ++ " accepted your friend request!") "social" ∧
    storeAndPushO ((like_post d a pid).toOption.map (fun r => r.1))
      (likeApplied d a pid p) u.id "New Like"
      (a.username ++ " liked your post!") "social" ∧
    storeAndPushO (comments_create d a pid content).toOption
      (commentApplied d a pid p content) u.id "New Comment"
      (a.username ++ " commented on your post!") "social" ∧
    storeAndPush (handle_send_message d a u.id content)
      (messageLogged d a u.id content) u.id "New Message"
      (a.username ++ " sent you a message") "social" := by
  have hp0 : p.user_id ≠ 0 := by rw [hpo]; exact hid
  have hane2 : a.id ≠ p.user_id := by rw [hpo]; exact hane
  have hf0 : f.user_id ≠ 0 := by rw [hfreq]; exact hid
  have hlike := like_post_notifies_owner d a pid p hp hp0 hane2 hnl
  rw [hpo] at hlike
  have hcomm := comments_create_notifies d a pid p content hp hp0 hane2
  rw [hpo] at hcomm
  have hacc := friends_accept_notifies d b fid f hfr hfrec hf0
  rw [hfreq] at hacc
  have haccSP := friends_accept_storeAndPush d b fid f hfr hfrec hf0
  rw [hfreq] at haccSP
  have hlikeSP := like_post_storeAndPush d a pid p hp hp0 hane2 hnl
  rw [hpo] at hlikeSP
  have hcommSP := comments_create_storeAndPush d a pid p content hp hp0 hane2
  rw [hpo] at hcommSP
  exact ⟨hydration_post_goal_notifies d u amt hid htot,
    sleep_post_short_notifies d u dur1 q1 hid hdur,
    sleep_post_quality_notifies d u dur2 q2 hid hdur2 hq,
    fasting_post_notifies d u tgt hid hfast,
    fasting_put_notifies d u sid s0 hid hsess hsown,
    friends_send_notifies d a u hid hlook hane hnofr,
    hlike,
    send_message_notifies d a u.id content hid,
    hcomm,
    hacc,
    hydration_post_storeAndPush d u amt hid htot,
    sleep_post_short_storeAndPush d u dur1 q1 hid hdur,
    sleep_post_quality_storeAndPush d u dur2 q2 hid hdur2 hq,
    fasting_post_storeAndPush d u tgt hid hfast,
    fasting_put_storeAndPush d u sid s0 hid hsess hsown,
    friends_send_storeAndPush d a u hid hlook hane hnofr,
    haccSP,
    hlikeSP,
    hcommSP,
    send_message_storeAndPush d a u.id content hid⟩

/-- Witness for C10: Bob's flag is off in `dbGate`, yet logging water up to the
goal still notifies him (here via the hydration conjunct; the same instance
discharges the comment, friend-accept and push conjuncts). -/
theorem flag_gates_only_evaluator_witness :
    countTy (hydration_post dbGate bob 600) bob.id "water" =
      countTy dbGate bob.id "water" + 1 :=
  (flag_gates_only_evaluator dbGate bob alice carol 600 5 8 7 3 16 1
    { id := 1, user_id := 2, target_duration := 16, completed := true } 1
    { id := 1, user_id := 2, content := "hello"
      likes_count := 0, comments_count := 0 }
    "hi" 1 { id := 1, user_id := 2, friend_id := 3, status := "pending" }
    (by decide) (by decide)
    (by simp [waterTotal, dbGate, emptyDB, bob]; norm_num)
    (by norm_num) (by norm_num) (by decide)
    (by decide) (by decide) (by decide) (by decide) (by decide) (by decide)
    (by decide) (by decide) (by decide)
    (by decide) (by decide) (by decide)).1

end App
